import Mathlib

/-!
Verification development for the SPED import/extraction core of the
`simulador-integrado-v4` repository.

The JavaScript source is embedded shallowly:

* JS numbers are modelled as rationals (`ℚ`); the monetary strings handled
  here never exercise float rounding, and every claim concerns exact
  comparisons the code itself performs.
* a JS field that may be `undefined` is an `Option`;
* a JS value that may be a number, a string or `undefined` is a `JsVal`;
* a JS function that can throw is an `Except JsError` computation.

Each definition carries a comment naming the source file and lines it
embeds.
-/

namespace SpedSim

/-- Errors a JS computation can raise.  `referenceError x` models the
`ReferenceError` thrown when an undeclared identifier `x` is read. -/
inductive JsError : Type where
  | referenceError (ident : String)
  | error (msg : String)
deriving Repr, DecidableEq

/-- A JS value that may be a number, a string or `undefined`
(the three shapes the extractor's duck-typed field reads distinguish). -/
inductive JsVal : Type where
  | num (q : ℚ)
  | str (s : String)
  | undef
deriving Repr, DecidableEq

/-- JS truthiness on a `JsVal`: `0`, `""` and `undefined` are falsy. -/
def JsVal.truthy : JsVal → Bool
  | .num q => q ≠ 0
  | .str s => s ≠ ""
  | .undef => false

/-- JS `a || b` on values. -/
def JsVal.orElse (a b : JsVal) : JsVal := if a.truthy then a else b

/-- JS truthiness of an optional number (an object field holding a number
or `undefined`). -/
def jsTruthyNum : Option ℚ → Bool
  | none => false
  | some q => q ≠ 0

/-- JS `a || b` where `a` is a possibly-`undefined` number field. -/
def jsOrNum (a : Option ℚ) (b : ℚ) : ℚ :=
  match a with
  | none => b
  | some q => if q = 0 then b else q

/-- Digit list to natural number (most significant first). -/
def digitsVal (l : List Char) : Nat :=
  l.foldl (fun a c => a * 10 + (c.toNat - '0'.toNat)) 0

/-- Optional leading sign of a float literal: the sign factor and the rest. -/
def stripSign : List Char → ℚ × List Char
  | '-' :: rest => (-1, rest)
  | '+' :: rest => (1, rest)
  | l => (1, l)

/-- Fractional part of a float literal: the digits right of the dot (if a
dot is next) and whatever follows them. -/
def fracPart : List Char → List Char × List Char
  | '.' :: rest => (rest.takeWhile (·.isDigit), rest.dropWhile (·.isDigit))
  | l => ([], l)

/-- Optional exponent suffix of a float literal (an `e`/`E` with no digits
after it contributes nothing, as in JS). -/
def expVal : List Char → ℤ
  | 'e' :: rest | 'E' :: rest =>
    let er : ℤ × List Char :=
      match rest with
      | '-' :: r => (-1, r)
      | '+' :: r => (1, r)
      | _ => (1, rest)
    let eds := er.2.takeWhile (·.isDigit)
    if eds = [] then 0 else er.1 * (digitsVal eds : ℤ)
  | _ => 0

/-- Semantic model of JavaScript `parseFloat` on a character list: skip
leading whitespace, read an optional sign, a digit run, an optional dot
with a fractional digit run and an optional exponent, and ignore any
trailing garbage; if no digit at all is read the result is `NaN`
(modelled as `none`).  The special literal `Infinity` is not modelled:
no input considered here contains it. -/
def jsParseFloat (l : List Char) : Option ℚ :=
  let l₀ := (stripSign (l.dropWhile (·.isWhitespace))).2
  let sign := (stripSign (l.dropWhile (·.isWhitespace))).1
  let intDigits := l₀.takeWhile (·.isDigit)
  let l₁ := l₀.dropWhile (·.isDigit)
  let fracDigits := (fracPart l₁).1
  let l₂ := (fracPart l₁).2
  if intDigits = [] ∧ fracDigits = [] then none
  else
    some (sign * ((digitsVal intDigits : ℚ) +
      (digitsVal fracDigits : ℚ) / ((10 : ℚ) ^ fracDigits.length)) *
      (10 : ℚ) ^ expVal l₂)

/-- `jsParseFloat` with the `isNaN(resultado) ? 0 : resultado` recovery
that both copies of `parseValorMonetario` apply. -/
def jsParseFloatD (l : List Char) : ℚ := (jsParseFloat l).getD 0

/-- JS `String.prototype.trim` on a character list. -/
def jsTrim (l : List Char) : List Char :=
  ((l.dropWhile (·.isWhitespace)).reverse.dropWhile (·.isWhitespace)).reverse

/-- JS `String.prototype.split(sep)` for a one-character separator. -/
def splitOnChar (sep : Char) : List Char → List (List Char)
  | [] => [[]]
  | c :: rest =>
    let r := splitOnChar sep rest
    if c = sep then [] :: r
    else
      match r with
      | h :: t => (c :: h) :: t
      | [] => [[c]]

/-- Embeds `parseValorMonetario` (src/js/importador/importador/sped-extractor.js
lines 12–53; the same function is repeated verbatim in src/unnamed/part_000
lines 7–42), restricted to string arguments, on the string's character
list.  Line 14 guard: for a string argument `!valorString` holds exactly
for `""`, and the explicit comparisons add `'0'` and `'null'`.  Lines
28–35: a single comma splits integer and decimal part and all dots are
removed from the integer part.  Lines 37–44: with no comma, two or more
dots are removed as thousands separators.  Line 46–47: `parseFloat` with
`NaN ↦ 0`.  Nothing in the body can throw, so the `catch` is dead. -/
def parseValorMonetarioL (l : List Char) : ℚ :=
  if l = [] ∨ l = ['0'] ∨ l = ['n', 'u', 'l', 'l'] then 0
  else
    let valor := jsTrim l
    let valor :=
      if ',' ∈ valor then
        match splitOnChar ',' valor with
        | [parteInteira, parteDecimal] =>
          parteInteira.filter (· ≠ '.') ++ '.' :: parteDecimal
        | _ => valor
      else
        if 2 < (splitOnChar '.' valor).length then valor.filter (· ≠ '.')
        else valor
    jsParseFloatD valor

/-- `parseValorMonetario` on a Lean string. -/
def parseValorMonetario (s : String) : ℚ := parseValorMonetarioL s.toList

/-- `parseValorMonetario` applied to an arbitrary JS value, following the
source's `typeof` dispatch: a number is returned as is (line 20–22; `NaN`
does not arise in the rational model), a string goes through the string
path, `undefined`/`0`/`''`/`'null'` fall into the line-14 guard. -/
def parseValorMonetarioVal : JsVal → ℚ
  | .num q => q
  | .str s => parseValorMonetario s
  | .undef => 0

example : parseValorMonetario "1.234.567,89" = 1234567.89 := by
  with_unfolding_all rfl
example : parseValorMonetario "" = 0 := by with_unfolding_all rfl
example : parseValorMonetario "12.50" = 12.50 := by with_unfolding_all rfl
example : parseValorMonetario "abc" = 0 := by with_unfolding_all rfl
example : parseValorMonetario "1,2,3" = 1 := by with_unfolding_all rfl

/-- Splitting on a separator that does not occur returns the whole list. -/
theorem splitOnChar_of_not_mem {sep : Char} :
    ∀ {l : List Char}, sep ∉ l → splitOnChar sep l = [l] := by
  intro l
  induction l with
  | nil => intro _; rfl
  | cons c rest ih =>
    intro h
    have hc : c ≠ sep := fun hcs => h (hcs ▸ List.mem_cons_self c rest)
    have hrest : sep ∉ rest := fun hm => h (List.mem_cons_of_mem c hm)
    simp [splitOnChar, hc, ih hrest]

/-- Splitting a list with exactly one separator occurrence gives the two
surrounding pieces. -/
theorem splitOnChar_single {sep : Char} {l₁ l₂ : List Char}
    (h₁ : sep ∉ l₁) (h₂ : sep ∉ l₂) :
    splitOnChar sep (l₁ ++ sep :: l₂) = [l₁, l₂] := by
  induction l₁ with
  | nil => simp [splitOnChar, splitOnChar_of_not_mem h₂]
  | cons c rest ih =>
    have hc : c ≠ sep := fun hcs => h₁ (hcs ▸ List.mem_cons_self c rest)
    have hrest : sep ∉ rest := fun hm => h₁ (List.mem_cons_of_mem c hm)
    simp only [List.cons_append, splitOnChar, if_neg hc]
    rw [show rest.append (sep :: l₂) = rest ++ sep :: l₂ from rfl, ih hrest]

/-- The number of pieces returned by `splitOnChar` is one more than the
number of separator occurrences. -/
theorem splitOnChar_length (sep : Char) :
    ∀ l : List Char, (splitOnChar sep l).length = l.count sep + 1 := by
  intro l
  induction l with
  | nil => rfl
  | cons c rest ih =>
    by_cases hc : c = sep
    · subst hc
      simp [splitOnChar, List.count_cons, ih]
    · have : (sep == c) = false := by
        simp [beq_iff_eq]; exact fun h => hc h.symm
      rcases hr : splitOnChar sep rest with _ | ⟨h0, t0⟩
      · have := ih; rw [hr] at this; simp at this
      · simp [splitOnChar, hc, hr, List.count_cons, beq_iff_eq] at ih ⊢
        omega

/-- `splitOnChar` never returns the empty list of pieces. -/
theorem splitOnChar_ne_nil (sep : Char) (l : List Char) :
    splitOnChar sep l ≠ [] := by
  intro h
  have := splitOnChar_length sep l
  rw [h] at this
  simp at this

/-- Every character of every piece of `splitOnChar` comes from the input. -/
theorem splitOnChar_mem_subset {sep : Char} :
    ∀ {l part : List Char}, part ∈ splitOnChar sep l → ∀ c ∈ part, c ∈ l := by
  intro l
  induction l with
  | nil =>
    intro part hp c hc
    simp [splitOnChar] at hp
    subst hp
    simp at hc
  | cons a rest ih =>
    intro part hp c hc
    by_cases ha : a = sep
    · have hsc : splitOnChar sep (a :: rest) = [] :: splitOnChar sep rest := by
        simp [splitOnChar, ha]
      rw [hsc] at hp
      rcases List.mem_cons.mp hp with hp' | hp'
      · subst hp'; simp at hc
      · exact List.mem_cons_of_mem _ (ih hp' c hc)
    · rcases hr : splitOnChar sep rest with _ | ⟨h0, t0⟩
      · exact absurd hr (splitOnChar_ne_nil sep rest)
      · have hsc : splitOnChar sep (a :: rest) = (a :: h0) :: t0 := by
          simp [splitOnChar, ha, hr]
        rw [hsc] at hp
        rcases List.mem_cons.mp hp with hp' | hp'
        · subst hp'
          rcases List.mem_cons.mp hc with hc' | hc'
          · exact hc' ▸ List.mem_cons_self a rest
          · exact List.mem_cons_of_mem _
              (ih (hr ▸ List.mem_cons_self h0 t0) c hc')
        · exact List.mem_cons_of_mem _ (ih (hr ▸ List.mem_cons_of_mem h0 hp') c hc)

/-- `jsTrim` only removes characters. -/
theorem jsTrim_subset (l : List Char) : ∀ c ∈ jsTrim l, c ∈ l := by
  intro c hc
  unfold jsTrim at hc
  rw [List.mem_reverse] at hc
  have hc₁ := (List.dropWhile_sublist _).subset hc
  rw [List.mem_reverse] at hc₁
  exact (List.dropWhile_sublist _).subset hc₁

/-- The rest after the optional sign is part of the input. -/
theorem stripSign_snd_subset (l : List Char) :
    ∀ c ∈ (stripSign l).2, c ∈ l := by
  intro c hc
  unfold stripSign at hc
  split at hc
  · exact List.mem_cons_of_mem _ hc
  · exact List.mem_cons_of_mem _ hc
  · exact hc

/-- `takeWhile` of a predicate failing everywhere is empty. -/
theorem takeWhile_nil_of {p : Char → Bool} :
    ∀ {l : List Char}, (∀ c ∈ l, ¬ p c) → l.takeWhile p = [] := by
  intro l h
  cases l with
  | nil => rfl
  | cons a rest =>
    have := h a (List.mem_cons_self a rest)
    simp [List.takeWhile_cons, this]

/-- `dropWhile` of a predicate failing everywhere drops nothing. -/
theorem dropWhile_eq_self_of {p : Char → Bool} :
    ∀ {l : List Char}, (∀ c ∈ l, ¬ p c) → l.dropWhile p = l := by
  intro l h
  cases l with
  | nil => rfl
  | cons a rest =>
    have := h a (List.mem_cons_self a rest)
    simp [List.dropWhile_cons, this]

/-- A digit-free input is `NaN` for the `parseFloat` model. -/
theorem jsParseFloat_no_digit {l : List Char}
    (h : ∀ c ∈ l, ¬ c.isDigit) : jsParseFloat l = none := by
  have h₀ : ∀ c ∈ l.dropWhile (·.isWhitespace), ¬ c.isDigit :=
    fun c hc => h c ((List.dropWhile_sublist _).subset hc)
  have h₁ : ∀ c ∈ (stripSign (l.dropWhile (·.isWhitespace))).2, ¬ c.isDigit :=
    fun c hc => h₀ c (stripSign_snd_subset _ c hc)
  have hTake := takeWhile_nil_of h₁
  have hDrop := dropWhile_eq_self_of h₁
  have hFrac : (fracPart ((stripSign
      (l.dropWhile (·.isWhitespace))).2.dropWhile (·.isDigit))).1 = [] := by
    rw [hDrop]
    unfold fracPart
    split
    · next rest heq =>
      exact takeWhile_nil_of fun c hc =>
        h₁ c (heq ▸ List.mem_cons_of_mem _ hc)
    · rfl
  unfold jsParseFloat
  simp [hTake, hFrac]

/-- C6: `parseValorMonetario` is a total function into `ℚ` (it never
raises and always returns a number), returns the documented values on the
three specification examples, and obeys the documented format rules: with
exactly one comma the comma is the decimal separator and all dots are
stripped from the integer part; with no comma and two or more dots all
dots are stripped as thousands separators; with no comma and at most one
dot the trimmed string is parsed as is (a single dot is a decimal point);
and a string whose parse yields nothing numeric (in particular any
digit-free string) gives 0. -/
theorem parseValorMonetario_formats :
    parseValorMonetario "1.234.567,89" = 1234567.89 ∧
    parseValorMonetario "" = 0 ∧
    parseValorMonetario "12.50" = 12.50 ∧
    (∀ l₁ l₂ : List Char, ',' ∉ l₁ → ',' ∉ l₂ →
      jsTrim (l₁ ++ ',' :: l₂) = l₁ ++ ',' :: l₂ →
      parseValorMonetarioL (l₁ ++ ',' :: l₂) =
        jsParseFloatD (l₁.filter (· ≠ '.') ++ '.' :: l₂)) ∧
    (∀ l : List Char, ',' ∉ l → 2 ≤ l.count '.' → jsTrim l = l →
      parseValorMonetarioL l = jsParseFloatD (l.filter (· ≠ '.'))) ∧
    (∀ l : List Char, l ≠ [] → l ≠ ['0'] → l ≠ ['n', 'u', 'l', 'l'] →
      ',' ∉ l → l.count '.' ≤ 1 → jsTrim l = l →
      parseValorMonetarioL l = jsParseFloatD l) ∧
    (∀ l : List Char, (∀ c ∈ l, ¬ c.isDigit) → parseValorMonetarioL l = 0) := by
  refine ⟨by with_unfolding_all rfl, by with_unfolding_all rfl,
    by with_unfolding_all rfl, ?_, ?_, ?_, ?_⟩
  · intro l₁ l₂ h₁ h₂ htrim
    have hmem : ',' ∈ l₁ ++ ',' :: l₂ :=
      List.mem_append_right _ (List.mem_cons_self _ _)
    have hguard : ¬ (l₁ ++ ',' :: l₂ = [] ∨ l₁ ++ ',' :: l₂ = ['0'] ∨
        l₁ ++ ',' :: l₂ = ['n', 'u', 'l', 'l']) := by
      rintro (h | h | h) <;> rw [h] at hmem <;> simp at hmem
    unfold parseValorMonetarioL
    rw [if_neg hguard]
    simp only [htrim, if_pos hmem, splitOnChar_single h₁ h₂]
  · intro l hc hdots htrim
    have hguard : ¬ (l = [] ∨ l = ['0'] ∨ l = ['n', 'u', 'l', 'l']) := by
      rintro (h | h | h) <;> subst h <;> exact absurd hdots (by decide)
    unfold parseValorMonetarioL
    rw [if_neg hguard]
    have hlen : 2 < (splitOnChar '.' l).length := by
      rw [splitOnChar_length]; omega
    simp only [htrim, if_neg hc, if_pos hlen]
  · intro l hne h0 hnull hc hdots htrim
    have hguard : ¬ (l = [] ∨ l = ['0'] ∨ l = ['n', 'u', 'l', 'l']) := by
      rintro (h | h | h) <;> [exact hne h; exact h0 h; exact hnull h]
    unfold parseValorMonetarioL
    rw [if_neg hguard]
    have hlen : ¬ 2 < (splitOnChar '.' l).length := by
      rw [splitOnChar_length]; omega
    simp only [htrim, if_neg hc, if_neg hlen]
  · intro l h
    unfold parseValorMonetarioL
    by_cases hg : l = [] ∨ l = ['0'] ∨ l = ['n', 'u', 'l', 'l']
    · rw [if_pos hg]
    · rw [if_neg hg]
      have ht : ∀ c ∈ jsTrim l, ¬ c.isDigit := fun c hc => h c (jsTrim_subset l c hc)
      by_cases hcm : ',' ∈ jsTrim l
      · simp only [if_pos hcm]
        rcases hsp : splitOnChar ',' (jsTrim l) with _ | ⟨p₁, t⟩
        · exact absurd hsp (splitOnChar_ne_nil _ _)
        · rcases t with _ | ⟨p₂, t₂⟩
          · simp only [hsp]
            unfold jsParseFloatD
            rw [jsParseFloat_no_digit ht]; rfl
          · rcases t₂ with _ | ⟨p₃, t₃⟩
            · simp only [hsp]
              have hp₁ : ∀ c ∈ p₁, ¬ c.isDigit := fun c hc =>
                ht c (splitOnChar_mem_subset
                  (hsp ▸ List.mem_cons_self p₁ [p₂]) c hc)
              have hp₂ : ∀ c ∈ p₂, ¬ c.isDigit := fun c hc =>
                ht c (splitOnChar_mem_subset
                  (hsp ▸ List.mem_cons_of_mem p₁ (List.mem_cons_self p₂ [])) c hc)
              have hall : ∀ c ∈ p₁.filter (· ≠ '.') ++ '.' :: p₂, ¬ c.isDigit := by
                intro c hcm'
                rcases List.mem_append.mp hcm' with hx | hx
                · exact hp₁ c (List.mem_of_mem_filter hx)
                · rcases List.mem_cons.mp hx with rfl | hx
                  · decide
                  · exact hp₂ c hx
              unfold jsParseFloatD
              rw [jsParseFloat_no_digit hall]; rfl
            · simp only [hsp]
              unfold jsParseFloatD
              rw [jsParseFloat_no_digit ht]; rfl
      · simp only [if_neg hcm]
        by_cases hlen : 2 < (splitOnChar '.' (jsTrim l)).length
        · rw [if_pos hlen]
          have hfil : ∀ c ∈ (jsTrim l).filter (· ≠ '.'), ¬ c.isDigit :=
            fun c hc => ht c (List.mem_of_mem_filter hc)
          unfold jsParseFloatD
          rw [jsParseFloat_no_digit hfil]; rfl
        · rw [if_neg hlen]
          unfold jsParseFloatD
          rw [jsParseFloat_no_digit ht]; rfl

/-- Witness for C6: the format rules applied at concrete inputs. -/
theorem parseValorMonetario_formats_witness :
    parseValorMonetarioL ['1', ',', '5'] = jsParseFloatD ['1', '.', '5'] ∧
    parseValorMonetarioL ['1', '.', '2', '.', '3'] =
      jsParseFloatD ['1', '2', '3'] ∧
    parseValorMonetarioL ['7', '.', '5'] = jsParseFloatD ['7', '.', '5'] ∧
    parseValorMonetarioL ['a', 'b'] = 0 := by
  have h := parseValorMonetario_formats
  refine ⟨?_, ?_, ?_, ?_⟩
  · exact h.2.2.2.1 ['1'] ['5'] (by decide) (by decide) (by decide)
  · exact h.2.2.2.2.1 ['1', '.', '2', '.', '3'] (by decide) (by decide) (by decide)
  · exact h.2.2.2.2.2.1 ['7', '.', '5'] (by decide) (by decide) (by decide)
      (by decide) (by decide) (by decide)
  · exact h.2.2.2.2.2.2 ['a', 'b'] (by decide)

/-! ## Sector classification (`analisarCFOPs`) -/

/-- The three sectors `analisarCFOPs` can return. -/
inductive Setor : Type where
  | industria
  | servicos
  | comercio
deriving Repr, DecidableEq

/-- Industry CFOP list from `analisarCFOPs`
(src/js/importador/importador/sped-extractor.js lines 2145–2149). -/
def cfopsIndustria : List String :=
  ["5101", "5102", "5103", "5104", "5105", "5106", "5109",
   "6101", "6102", "6103", "6104", "6105", "6106", "6109",
   "5124", "5125", "6124", "6125", "5901", "5902", "6901", "6902"]

/-- Services CFOP list from `analisarCFOPs` (lines 2151–2155; the source
repeats `'5933'`, which is harmless for membership). -/
def cfopsServicos : List String :=
  ["5933", "5932", "5933", "6933", "6932", "9301", "9302",
   "5301", "5302", "5303", "5304", "5305", "5306", "5307",
   "6301", "6302", "6303", "6304", "6305", "6306", "6307"]

/-- The three counters accumulated by the `forEach` loop of `analisarCFOPs`
(lines 2157–2169), as (industry, services, commerce).  Industry codes add
2, services codes add 1, other codes starting with `'5'` or `'6'` add 1 to
commerce, anything else adds nothing. -/
def contagemCFOPs : List String → Nat × Nat × Nat
  | [] => (0, 0, 0)
  | cfop :: rest =>
    let c := contagemCFOPs rest
    if cfop ∈ cfopsIndustria then (c.1 + 2, c.2.1, c.2.2)
    else if cfop ∈ cfopsServicos then (c.1, c.2.1 + 1, c.2.2)
    else if cfop.startsWith "5" || cfop.startsWith "6" then (c.1, c.2.1, c.2.2 + 1)
    else c

/-- Embeds `analisarCFOPs` (sped-extractor.js lines 2144–2178): the
decision (lines 2171–2177) returns industry when its score is positive
and at least `Math.max(countComercio, countServicos)`, otherwise services
when strictly above commerce, otherwise commerce. -/
def analisarCFOPs (cfops : List String) : Setor :=
  let c := contagemCFOPs cfops
  if 0 < c.1 ∧ max c.2.2 c.2.1 ≤ c.1 then .industria
  else if c.2.2 < c.2.1 then .servicos
  else .comercio

/-- With every code on the industry list, the counters are
(2 · length, 0, 0). -/
theorem contagemCFOPs_all_industria :
    ∀ {l : List String}, (∀ c ∈ l, c ∈ cfopsIndustria) →
      contagemCFOPs l = (2 * l.length, 0, 0) := by
  intro l
  induction l with
  | nil => intro _; rfl
  | cons a rest ih =>
    intro h
    have ha := h a (List.mem_cons_self a rest)
    have hrest := fun c hc => h c (List.mem_cons_of_mem a hc)
    simp only [contagemCFOPs, if_pos ha, ih hrest, List.length_cons,
      Prod.mk.injEq]
    trivial

/-- C7 (counterexample): for the code set
`{"5101", "5201", "5202"}` the scores are industry 2, services 0,
commerce 2 — a tie between industry and commerce — yet the classifier
returns `industria`, not the claimed commerce tie default. -/
theorem analisarCFOPs_claim_counterexample :
    contagemCFOPs ["5101", "5201", "5202"] = (2, 0, 2) ∧
    analisarCFOPs ["5101", "5201", "5202"] = Setor.industria ∧
    Setor.industria ≠ Setor.comercio := by
  refine ⟨by with_unfolding_all rfl, by with_unfolding_all rfl, by decide⟩

/-- C7 (amended): industry codes score 2, services codes score 1, other
codes starting with `'5'` or `'6'` score 1 for commerce; the classifier
returns `industria` whenever the industry score is positive and at least
the maximum of the other two (so a tie involving industry goes to
industry, not commerce), otherwise `servicos` when services strictly
beats commerce, otherwise `comercio`.  In particular a nonempty code set
drawn entirely from the industry list yields `industria`, and the empty
set yields `comercio`. -/
theorem analisarCFOPs_scoring :
    (∀ cfops : List String, cfops ≠ [] →
      (∀ c ∈ cfops, c ∈ cfopsIndustria) → analisarCFOPs cfops = .industria) ∧
    analisarCFOPs [] = .comercio ∧
    (∀ cfops : List String, 0 < (contagemCFOPs cfops).1 →
      max (contagemCFOPs cfops).2.2 (contagemCFOPs cfops).2.1 ≤
        (contagemCFOPs cfops).1 →
      analisarCFOPs cfops = .industria) ∧
    (∀ cfops : List String,
      ((contagemCFOPs cfops).1 = 0 ∨
        (contagemCFOPs cfops).1 < max (contagemCFOPs cfops).2.2
          (contagemCFOPs cfops).2.1) →
      (contagemCFOPs cfops).2.2 < (contagemCFOPs cfops).2.1 →
      analisarCFOPs cfops = .servicos) ∧
    (∀ cfops : List String,
      ((contagemCFOPs cfops).1 = 0 ∨
        (contagemCFOPs cfops).1 < max (contagemCFOPs cfops).2.2
          (contagemCFOPs cfops).2.1) →
      (contagemCFOPs cfops).2.1 ≤ (contagemCFOPs cfops).2.2 →
      analisarCFOPs cfops = .comercio) := by
  refine ⟨?_, by with_unfolding_all rfl, ?_, ?_, ?_⟩
  · intro cfops hne hall
    unfold analisarCFOPs
    rw [contagemCFOPs_all_industria hall]
    have : 0 < 2 * cfops.length := by
      cases cfops with
      | nil => exact absurd rfl hne
      | cons a r => simp [Nat.succ_mul]
    simp [this]
  · intro cfops h1 h2
    unfold analisarCFOPs
    rw [if_pos ⟨h1, h2⟩]
  · intro cfops h1 h2
    unfold analisarCFOPs
    rw [if_neg (by omega), if_pos h2]
  · intro cfops h1 h2
    unfold analisarCFOPs
    rw [if_neg (by omega), if_neg (by omega)]

/-- Witness for the amended C7 at concrete inputs. -/
theorem analisarCFOPs_scoring_witness :
    analisarCFOPs ["5101", "6902"] = Setor.industria ∧
    analisarCFOPs ["5933", "1102"] = Setor.servicos ∧
    analisarCFOPs ["5201", "5933", "5202"] = Setor.comercio := by
  have h := analisarCFOPs_scoring
  refine ⟨?_, ?_, ?_⟩
  · exact h.1 ["5101", "6902"] (by decide) (by decide)
  · exact h.2.2.2.1 ["5933", "1102"] (by with_unfolding_all decide)
      (by with_unfolding_all decide)
  · exact h.2.2.2.2 ["5201", "5933", "5202"] (by with_unfolding_all decide)
      (by with_unfolding_all decide)

/-! ## Record decoders (src/unnamed/part_000) -/

/-- A decoded SPED line: the fields of the `'|'`-split raw line. -/
abbrev Campos := List String

/-- `parseValorMonetario` on a field that may be absent
(`parseValorMonetario(undefined)` hits the falsy guard and gives 0). -/
def parseValorMonetarioOpt (o : Option String) : ℚ :=
  match o with
  | none => 0
  | some s => parseValorMonetario s

/-- JS `s.replace(a, b)` for one-character patterns: replaces the first
occurrence only. -/
def replaceFirstChar (a b : Char) : List Char → List Char
  | [] => []
  | c :: rest => if c = a then b :: rest else c :: replaceFirstChar a b rest

/-- Embeds `validarEstruturaRegistro` (part_000 lines 493–495): the line
must have at least `minCampos` fields (the model's `Campos` is always an
array, so `Array.isArray` holds). -/
def validarEstruturaRegistro (campos : Campos) (minCampos : Nat) : Bool :=
  decide (minCampos ≤ campos.length)

/-- Embeds `validarCampo` (part_000 lines 500–505): an out-of-range or
falsy (empty) field yields the default, otherwise the trimmed field. -/
def validarCampo (campos : Campos) (indice : Nat) (valorPadrao : String := "") :
    String :=
  match campos.get? indice with
  | none => valorPadrao
  | some v => if v = "" then valorPadrao else v.trim

/-- Embeds `converterValorMonetario` (part_000 lines 510–522): strip all
whitespace, replace the first comma by a dot, `parseFloat` with `NaN ↦ 0`. -/
def converterValorMonetario (valor : String) : ℚ :=
  if valor = "" then 0
  else jsParseFloatD (replaceFirstChar ',' '.'
    (valor.toList.filter (fun c => ¬ c.isWhitespace)))

/-- `parseFloat(validarCampo(campos, i, '0').replace(',', '.')) || 0`,
the numeric-field idiom of the part_000 decoders. -/
def parseFloatCampo (campos : Campos) (i : Nat) : ℚ :=
  jsParseFloatD (replaceFirstChar ',' '.' (validarCampo campos i "0").toList)

/-- The record produced by `parseRegistroC100`. -/
structure RegistroC100 : Type where
  indOper : Option String
  indEmit : Option String
  codPart : Option String
  modelo : Option String
  serie : Option String
  numero : Option String
  chaveNFe : Option String
  dataEmissao : Option String
  dataSaidaEntrada : Option String
  valorTotal : ℚ
  valorProdutos : ℚ
deriving Repr, DecidableEq

/-- Embeds `parseRegistroC100` (part_000 lines 1081–1108).  Unlike every
other decoder it performs no `validarEstruturaRegistro` check: it reads
fields 2–16 directly (absent fields are `undefined`, and
`parseValorMonetario(undefined) = 0`) and always returns a record. -/
def parseRegistroC100 (campos : Campos) : Option RegistroC100 :=
  some
    { indOper := campos.get? 2
      indEmit := campos.get? 3
      codPart := campos.get? 4
      modelo := campos.get? 5
      serie := campos.get? 7
      numero := campos.get? 8
      chaveNFe := campos.get? 9
      dataEmissao := campos.get? 10
      dataSaidaEntrada := campos.get? 11
      valorTotal := parseValorMonetarioOpt (campos.get? 12)
      valorProdutos := parseValorMonetarioOpt (campos.get? 16) }

/-- The record produced by `parseRegistro0005`. -/
structure Registro0005 : Type where
  fantasia : String
  cep : String
  endereco : String
  numero : String
  complemento : String
  bairro : String
deriving Repr, DecidableEq

/-- Embeds `parseRegistro0005` (part_000 lines 1027–1038). -/
def parseRegistro0005 (campos : Campos) : Option Registro0005 :=
  if validarEstruturaRegistro campos 7 then
    some
      { fantasia := validarCampo campos 2
        cep := validarCampo campos 3
        endereco := validarCampo campos 4
        numero := validarCampo campos 5
        complemento := validarCampo campos 6
        bairro := validarCampo campos 7 }
  else none

/-- The record produced by `parseRegistro0190`. -/
structure Registro0190 : Type where
  codigo : String
  descricao : String
deriving Repr, DecidableEq

/-- Embeds `parseRegistro0190` (part_000 lines 1056–1063). -/
def parseRegistro0190 (campos : Campos) : Option Registro0190 :=
  if validarEstruturaRegistro campos 3 then
    some { codigo := validarCampo campos 2, descricao := validarCampo campos 3 }
  else none

/-- The record produced by `parseRegistro0150`. -/
structure Registro0150 : Type where
  codigo : String
  nome : String
  codigoPais : String
  cnpjCpf : String
  ie : String
  codigoMunicipio : String
  suframa : String
  endereco : String
  numero : String
deriving Repr, DecidableEq

/-- Embeds `parseRegistro0150` (part_000 lines 1040–1054). -/
def parseRegistro0150 (campos : Campos) : Option Registro0150 :=
  if validarEstruturaRegistro campos 11 then
    some
      { codigo := validarCampo campos 2
        nome := validarCampo campos 3
        codigoPais := validarCampo campos 4
        cnpjCpf := validarCampo campos 5
        ie := validarCampo campos 6
        codigoMunicipio := validarCampo campos 7
        suframa := validarCampo campos 8
        endereco := validarCampo campos 9
        numero := validarCampo campos 10 }
  else none

/-- The record produced by `parseRegistroC170`. -/
structure RegistroC170 : Type where
  numItem : String
  codItem : String
  descrItem : String
  qtd : ℚ
  unid : String
  valorItem : ℚ
  valorTotalItem : ℚ
  valorDesc : ℚ
  indMov : String
  cstIcms : String
  cfop : String
  codNat : String
  valorBcIcms : ℚ
  aliqIcms : ℚ
  valorIcms : ℚ
  valorBcIcmsSt : ℚ
  aliqIcmsSt : ℚ
  valorIcmsSt : ℚ
deriving Repr, DecidableEq

/-- Embeds `parseRegistroC170` (part_000 lines 1111–1144); its `try`
cannot fail in the model, so only the field extraction remains. -/
def parseRegistroC170 (campos : Campos) : Option RegistroC170 :=
  if validarEstruturaRegistro campos 17 then
    some
      { numItem := validarCampo campos 2
        codItem := validarCampo campos 3
        descrItem := validarCampo campos 4
        qtd := parseFloatCampo campos 5
        unid := validarCampo campos 6
        valorItem := parseValorMonetario (validarCampo campos 7 "0")
        valorTotalItem := parseValorMonetario (validarCampo campos 7 "0")
        valorDesc := parseValorMonetario (validarCampo campos 8 "0")
        indMov := validarCampo campos 9
        cstIcms := validarCampo campos 10
        cfop := validarCampo campos 11
        codNat := validarCampo campos 12
        valorBcIcms := parseValorMonetario (validarCampo campos 13 "0")
        aliqIcms := parseFloatCampo campos 14
        valorIcms := parseValorMonetario (validarCampo campos 15 "0")
        valorBcIcmsSt := parseValorMonetario (validarCampo campos 16 "0")
        aliqIcmsSt := parseFloatCampo campos 17
        valorIcmsSt := parseValorMonetario (validarCampo campos 18 "0") }
  else none

/-- The record produced by `parseRegistroC190`. -/
structure RegistroC190 : Type where
  cstIcms : String
  cfop : String
  aliqIcms : ℚ
  valorOpr : ℚ
  valorBcIcms : ℚ
  valorIcms : ℚ
  valorBcIcmsSt : ℚ
  valorIcmsSt : ℚ
  valorRedBc : ℚ
  valorIpi : ℚ
  codObs : String
deriving Repr, DecidableEq

/-- Embeds `parseRegistroC190` (part_000 lines 1157–1183). -/
def parseRegistroC190 (campos : Campos) : Option RegistroC190 :=
  if validarEstruturaRegistro campos 9 then
    some
      { cstIcms := validarCampo campos 2
        cfop := validarCampo campos 3
        aliqIcms := parseFloatCampo campos 4
        valorOpr := parseValorMonetario (validarCampo campos 5 "0")
        valorBcIcms := parseValorMonetario (validarCampo campos 6 "0")
        valorIcms := parseValorMonetario (validarCampo campos 7 "0")
        valorBcIcmsSt := parseValorMonetario (validarCampo campos 8 "0")
        valorIcmsSt := parseValorMonetario (validarCampo campos 9 "0")
        valorRedBc := parseValorMonetario (validarCampo campos 10 "0")
        valorIpi := parseValorMonetario (validarCampo campos 11 "0")
        codObs := validarCampo campos 12 }
  else none

/-- The record produced by `parseRegistroC197`. -/
structure RegistroC197 : Type where
  codigoAjOuInf : String
  descrCompl : String
  valorAjuste : ℚ
deriving Repr, DecidableEq

/-- Embeds `parseRegistroC197` (part_000 lines 1146–1155). -/
def parseRegistroC197 (campos : Campos) : Option RegistroC197 :=
  if validarEstruturaRegistro campos 8 then
    some
      { codigoAjOuInf := validarCampo campos 2
        descrCompl := validarCampo campos 3
        valorAjuste := converterValorMonetario (validarCampo campos 4 "0") }
  else none

/-- C5 (counterexample): `parseRegistroC100` produces a record from a
two-field line — far below the 17+ fields its schema reads — so the
claimed invariant "a record missing its schema's minimum field count is
never produced by any decoder (including parseRegistroC100)" is false. -/
theorem parseRegistroC100_short_line :
    (parseRegistroC100 ["", "C100"]).isSome = true ∧
    (["", "C100"] : Campos).length = 2 := ⟨rfl, rfl⟩

/-- C5 (amended): every embedded decoder that is built on
`validarEstruturaRegistro` returns nothing below its minimum field count,
but `parseRegistroC100` performs no minimum-field-count check and returns
a record for every input line. -/
theorem decoders_min_field_validation :
    (∀ campos : Campos, campos.length < 7 → parseRegistro0005 campos = none) ∧
    (∀ campos : Campos, campos.length < 11 → parseRegistro0150 campos = none) ∧
    (∀ campos : Campos, campos.length < 3 → parseRegistro0190 campos = none) ∧
    (∀ campos : Campos, campos.length < 17 → parseRegistroC170 campos = none) ∧
    (∀ campos : Campos, campos.length < 9 → parseRegistroC190 campos = none) ∧
    (∀ campos : Campos, campos.length < 8 → parseRegistroC197 campos = none) ∧
    (∀ campos : Campos, (parseRegistroC100 campos).isSome = true) := by
  have hv : ∀ (campos : Campos) (n : Nat), campos.length < n →
      validarEstruturaRegistro campos n = false := by
    intro campos n h
    simp [validarEstruturaRegistro]
    omega
  refine ⟨?_, ?_, ?_, ?_, ?_, ?_, fun _ => rfl⟩ <;> intro campos h
  · simp [parseRegistro0005, hv campos 7 h]
  · simp [parseRegistro0150, hv campos 11 h]
  · simp [parseRegistro0190, hv campos 3 h]
  · simp [parseRegistroC170, hv campos 17 h]
  · simp [parseRegistroC190, hv campos 9 h]
  · simp [parseRegistroC197, hv campos 8 h]

/-- Witness for the amended C5 at the empty field list. -/
theorem decoders_min_field_validation_witness :
    parseRegistro0005 [] = none ∧
    parseRegistro0150 [] = none ∧
    parseRegistro0190 [] = none ∧
    parseRegistroC170 [] = none ∧
    parseRegistroC190 [] = none ∧
    parseRegistroC197 [] = none ∧
    (parseRegistroC100 []).isSome = true := by
  have h := decoders_min_field_validation
  exact ⟨h.1 [] (by decide), h.2.1 [] (by decide), h.2.2.1 [] (by decide),
    h.2.2.2.1 [] (by decide), h.2.2.2.2.1 [] (by decide),
    h.2.2.2.2.2.1 [] (by decide), h.2.2.2.2.2.2 []⟩

/-! ## The per-line decode loop (`extrairDados`, part_000 lines 434–471) -/

/-- The error/count metadata accumulated by `extrairDados`
(part_000 lines 414–420). -/
structure MetadadosExtracao : Type where
  registrosProcessados : Nat
  registrosIgnorados : Nat
  erros : List String
deriving Repr, DecidableEq

/-- A dispatch table for one file type: record code to decoder.  A decoder
(a JS function) may return a record (modelled as an opaque payload
string), return `null`, or throw (`Except.error` with the exception
message) — exactly the three outcomes lines 451–462 distinguish. -/
abbrev TabelaRegistros := String → Option (Campos → Except String (Option String))

/-- What the loop body does to one line, per the source: blank lines are
skipped (line 437), lines with fewer than two fields are counted ignored
(442–445), a decoder returning a record integrates it and counts it
processed (451–457), a decoder throw appends
`Erro no registro <code> (linha <i+1>): <msg>` and continues (458–462),
and an unknown record code is counted ignored (463–465). -/
inductive ResultadoLinha : Type where
  | pulada
  | ignorada
  | processada (registro payload : String)
  | semEfeito
  | comErro (msg : String)
deriving Repr, DecidableEq

/-- The error message format of part_000 line 459. -/
def mensagemErro (registro : String) (i : Nat) (msg : String) : String :=
  "Erro no registro " ++ registro ++ " (linha " ++ toString (i + 1) ++ "): " ++ msg

/-- One iteration of the `for` loop of `extrairDados` (lines 434–471),
acting on the metadata and the list of integrated records. -/
def passoLinha (tabela : TabelaRegistros)
    (st : MetadadosExtracao × List (String × String)) (i : Nat)
    (linha : String) : MetadadosExtracao × List (String × String) :=
  let md := st.1
  let acc := st.2
  if linha.trim = "" then st
  else
    let campos := linha.splitOn "|"
    if campos.length < 2 then
      ({ md with registrosIgnorados := md.registrosIgnorados + 1 }, acc)
    else
      let registro := (campos.get? 1).getD ""
      match tabela registro with
      | some decoder =>
        match decoder campos with
        | .ok (some r) =>
          ({ md with registrosProcessados := md.registrosProcessados + 1 },
            acc ++ [(registro, r)])
        | .ok none => st
        | .error e =>
          ({ md with erros := md.erros ++ [mensagemErro registro i e] }, acc)
      | none =>
        ({ md with registrosIgnorados := md.registrosIgnorados + 1 }, acc)

/-- The loop of `extrairDados` over the numbered lines. -/
def extrairDadosLoop (tabela : TabelaRegistros) :
    List String → Nat → MetadadosExtracao × List (String × String) →
      MetadadosExtracao × List (String × String)
  | [], _, st => st
  | linha :: rest, i, st =>
    extrairDadosLoop tabela rest (i + 1) (passoLinha tabela st i linha)

/-- Embeds the decode loop of `extrairDados` (part_000 lines 432–471),
starting from the fresh metadata of lines 414–420; the `resultado`
buckets built by `integrarDados` are abstracted to the list of
(record code, payload) pairs that reach `integrarDados`. -/
def extrairDados (tabela : TabelaRegistros) (linhas : List String) :
    MetadadosExtracao × List (String × String) :=
  extrairDadosLoop tabela linhas 0 (⟨0, 0, []⟩, [])

/-- Pure per-line classification of what the loop does with line `linha`
at zero-based index `i`. -/
def classificarLinha (tabela : TabelaRegistros) (i : Nat) (linha : String) :
    ResultadoLinha :=
  if linha.trim = "" then .pulada
  else
    let campos := linha.splitOn "|"
    if campos.length < 2 then .ignorada
    else
      let registro := (campos.get? 1).getD ""
      match tabela registro with
      | some decoder =>
        match decoder campos with
        | .ok (some r) => .processada registro r
        | .ok none => .semEfeito
        | .error e => .comErro (mensagemErro registro i e)
      | none => .ignorada

/-- Is a line classification an error? (with its message) -/
def erroDe : ResultadoLinha → Option String
  | .comErro m => some m
  | _ => none

/-- Is a line classification an ignored record? -/
def ehIgnorada : ResultadoLinha → Bool
  | .ignorada => true
  | _ => false

/-- Is a line classification a processed record? (with its payload) -/
def registroDe : ResultadoLinha → Option (String × String)
  | .processada reg r => some (reg, r)
  | _ => none

/-- The loop is a fold of independent per-line effects: from any start
state, the final state adds exactly the per-line classified effects. -/
theorem extrairDadosLoop_spec (tabela : TabelaRegistros) :
    ∀ (linhas : List String) (i : Nat) (md : MetadadosExtracao)
      (acc : List (String × String)),
      extrairDadosLoop tabela linhas i (md, acc) =
        ({ registrosProcessados := md.registrosProcessados +
            ((List.enumFrom i linhas).countP
              (fun p => (registroDe (classificarLinha tabela p.1 p.2)).isSome))
           registrosIgnorados := md.registrosIgnorados +
            ((List.enumFrom i linhas).countP
              (fun p => ehIgnorada (classificarLinha tabela p.1 p.2)))
           erros := md.erros ++ (List.enumFrom i linhas).filterMap
            (fun p => erroDe (classificarLinha tabela p.1 p.2)) },
          acc ++ (List.enumFrom i linhas).filterMap
            (fun p => registroDe (classificarLinha tabela p.1 p.2))) := by
  intro linhas
  induction linhas with
  | nil => intro i md acc; simp [extrairDadosLoop, List.enumFrom]
  | cons linha rest ih =>
    intro i md acc
    rw [extrairDadosLoop]
    have hstep : passoLinha tabela (md, acc) i linha =
        (match classificarLinha tabela i linha with
          | .pulada => (md, acc)
          | .ignorada =>
            ({ md with registrosIgnorados := md.registrosIgnorados + 1 }, acc)
          | .processada reg r =>
            ({ md with registrosProcessados := md.registrosProcessados + 1 },
              acc ++ [(reg, r)])
          | .semEfeito => (md, acc)
          | .comErro m => ({ md with erros := md.erros ++ [m] }, acc)) := by
      unfold passoLinha classificarLinha
      by_cases h1 : linha.trim = ""
      · simp [h1]
      · simp only [h1, if_neg, ite_false]
        by_cases h2 : (linha.splitOn "|").length < 2
        · simp [h2]
        · simp only [h2, ite_false]
          rcases ht : tabela (((linha.splitOn "|").get? 1).getD "") with _ | decoder
          · simp [ht]
          · rcases hd : decoder (linha.splitOn "|") with e | r
            · simp [ht, hd]
            · rcases r with _ | r <;> simp [ht, hd]
    rw [hstep]
    rcases hc : classificarLinha tabela i linha with _ | _ | ⟨reg, r⟩ | _ | m <;>
      · simp only []
        rw [ih]
        simp [List.enumFrom, hc, erroDe, ehIgnorada, registroDe,
          MetadadosExtracao.mk.injEq, List.append_assoc]
        try omega

/-- C9: the decode loop is never aborted by a single line.  For every
dispatch table and every line sequence the loop runs to completion and
its outcome decomposes line by line: the error list contains exactly one
message `Erro no registro <code> (linha i+1): <msg>` for each line whose
decoder threw (and processing of the remaining lines still happened); the
ignored counter counts exactly the lines whose record code is not in the
table (or that have fewer than two fields), which contribute no error;
the processed records are exactly those whose decoder returned a record. -/
theorem extrairDados_nunca_aborta (tabela : TabelaRegistros)
    (linhas : List String) :
    (extrairDados tabela linhas).1.erros =
      (List.enumFrom 0 linhas).filterMap
        (fun p => erroDe (classificarLinha tabela p.1 p.2)) ∧
    (extrairDados tabela linhas).1.registrosIgnorados =
      (List.enumFrom 0 linhas).countP
        (fun p => ehIgnorada (classificarLinha tabela p.1 p.2)) ∧
    (extrairDados tabela linhas).1.registrosProcessados =
      (List.enumFrom 0 linhas).countP
        (fun p => (registroDe (classificarLinha tabela p.1 p.2)).isSome) ∧
    (extrairDados tabela linhas).2 =
      (List.enumFrom 0 linhas).filterMap
        (fun p => registroDe (classificarLinha tabela p.1 p.2)) := by
  unfold extrairDados
  rw [extrairDadosLoop_spec]
  simp

/-! ## File-type classification (`determinarTipoSped`, part_000 lines 530–756) -/

/-- The four SPED file types, plus the `'indefinido'` marker the
name-based classifier uses for "no decision". -/
inductive TipoSped : Type where
  | contribuicoes
  | ecf
  | ecd
  | fiscal
  | indefinido
deriving Repr, DecidableEq

/-- `sub` occurs as a substring of `nome` (JS `String.prototype.includes`
on the already-lowercased name; the `/i` regex flags are absorbed by the
`toLowerCase` of line 668, which the model mirrors with `String.toLower` —
the names compared here are ASCII apart from `'ã'`, which both sides keep
as is in lowercase inputs). -/
def temSub (nome sub : String) : Bool :=
  (nome.toList.tails).any (fun t => sub.toList.isPrefixOf t)

/-- Some alternative occurs as a substring. -/
def temAlgumaSub (nome : String) (subs : List String) : Bool :=
  subs.any (temSub nome)

/-- `sub` is a prefix of `nome` (a `^`-anchored pattern). -/
def temPrefixo (nome sub : String) : Bool := sub.toList.isPrefixOf nome.toList

/-- The three expansions of an `[_\-]?` regex gap. -/
def seps : List String := ["", "_", "-"]

/-- The expansions of `a[_\-]?b`. -/
def padraoOpcSep (a b : String) : List String := seps.map (fun s => a ++ s ++ b)

/-- The expansions of `escriturac(a|ã)o[_\-]?contabil[_\-]?<fim>`. -/
def padraoEscrituracao (fim : String) : List String :=
  ["escrituracao", "escrituracão"].flatMap fun p =>
    seps.flatMap fun s1 => seps.map fun s2 => p ++ s1 ++ "contabil" ++ s2 ++ fim

/-- The federal-contributions name patterns (part_000 lines 671–678),
each regex expanded into its finite substring alternatives:
`contribuic(o|ã)es`, `pis[_\-]?cofins`, `efd[_\-]?contribuic`,
`efd[_\-]?pis`, `sped[_\-]?contribuic`, `sped[_\-]?pis`. -/
def padroesPisConfins (nome : String) : Bool :=
  temSub nome "contribuicoes" || temSub nome "contribuicães" ||
  temAlgumaSub nome (padraoOpcSep "pis" "cofins") ||
  temAlgumaSub nome (padraoOpcSep "efd" "contribuic") ||
  temAlgumaSub nome (padraoOpcSep "efd" "pis") ||
  temAlgumaSub nome (padraoOpcSep "sped" "contribuic") ||
  temAlgumaSub nome (padraoOpcSep "sped" "pis")

/-- The corporate-income-tax (ECF) name patterns (lines 681–687). -/
def padroesEcf (nome : String) : Bool :=
  temPrefixo nome "ecf_" || temPrefixo nome "ecf-" ||
  temAlgumaSub nome ["_ecf_", "_ecf-", "-ecf_", "-ecf-"] ||
  temAlgumaSub nome (padraoEscrituracao "fiscal") ||
  temAlgumaSub nome (padraoOpcSep "sped" "ecf") ||
  temAlgumaSub nome (padraoOpcSep "ecd" "fiscal")

/-- The accounting-ledger (ECD) name patterns (lines 690–696). -/
def padroesEcd (nome : String) : Bool :=
  temPrefixo nome "ecd_" || temPrefixo nome "ecd-" ||
  temAlgumaSub nome ["_ecd_", "_ecd-", "-ecd_", "-ecd-"] ||
  temAlgumaSub nome (padraoEscrituracao "digital") ||
  temAlgumaSub nome (padraoOpcSep "sped" "ecd") ||
  temAlgumaSub nome (padraoOpcSep "contabil" "digital")

/-- The goods-tax (EFD ICMS/IPI) name patterns (lines 699–706). -/
def padroesFiscal (nome : String) : Bool :=
  temPrefixo nome "efd_" || temPrefixo nome "efd-" ||
  temSub nome "fiscal" ||
  temAlgumaSub nome (padraoOpcSep "icms" "ipi") ||
  temAlgumaSub nome (padraoOpcSep "sped" "fiscal") ||
  temAlgumaSub nome (padraoOpcSep "efd" "icms") ||
  temAlgumaSub nome (padraoOpcSep "nota" "fiscal")

/-- Embeds `determinarTipoPorNomeArquivo` (part_000 lines 662–756): the
four ordered pattern groups, then the `.efd`/`.sped` extension fallback
with its keyword checks, else `'indefinido'`. -/
def determinarTipoPorNomeArquivo (nomeArquivo : String) : TipoSped :=
  if nomeArquivo = "" then .indefinido
  else
    let nome := nomeArquivo.toLower
    if padroesPisConfins nome then .contribuicoes
    else if padroesEcf nome then .ecf
    else if padroesEcd nome then .ecd
    else if padroesFiscal nome then .fiscal
    else
      let extensao := (nome.splitOn ".").getLastD ""
      if extensao = "efd" ∨ extensao = "sped" then
        if temSub nome "pis" || temSub nome "cofins" || temSub nome "contribuic"
        then .contribuicoes
        else if temSub nome "ecf" then .ecf
        else if temSub nome "ecd" then .ecd
        else .fiscal
      else .indefinido

/-- The record codes identifying a federal-contributions file
(part_000 lines 546–566). -/
def identificadoresContribuicoes : List String :=
  ["0110", "0140", "A100", "A110", "A111", "C180", "C181", "C185", "C188",
   "D100", "D101", "D105", "D111",
   "F100", "F111", "F120", "F129", "F130", "F139", "F150", "F200", "F205",
   "F210", "F211", "I100", "I199",
   "M100", "M105", "M110", "M115", "M200", "M205", "M210", "M220", "M225",
   "M400", "M410", "M500", "M505", "M510", "M515", "M600", "M605", "M610",
   "M620", "M625", "M800", "M810",
   "P100", "P110", "P199", "P200", "P210",
   "1001", "1100", "1200", "1300", "1500"]

/-- The record codes identifying an ECF file (lines 567–588). -/
def identificadoresEcf : List String :=
  ["0010", "0020", "J001", "J050", "J051", "J100",
   "K001", "K030", "K155", "K156", "L001", "L030", "L100",
   "M001", "M010", "M300", "M350",
   "N001", "N500", "N600", "N610", "N620", "N630", "N650", "N660", "N670",
   "P001", "P030", "P100", "P130", "P150", "P200", "P230",
   "T001", "T030", "T120", "T150", "U001", "U030", "U100", "Y540"]

/-- The record codes identifying an ECD file (lines 589–599). -/
def identificadoresEcd : List String :=
  ["0007", "0020", "I001", "I010", "I012", "I015", "I020", "I030", "I050",
   "I051", "I052", "I053", "I100", "I150", "I155", "I200", "I250", "I300",
   "I310", "I350", "I355", "J001", "J005", "J100", "J150",
   "K001", "K030", "K100", "K155", "K156", "K200", "K220", "K230", "K300"]

/-- The record codes identifying a goods-tax (fiscal) file (lines 600–611). -/
def identificadoresFiscal : List String :=
  ["0001", "0005", "0150", "0190", "0200", "C100", "C170", "C190", "C197",
   "E110", "E111", "E116", "E200", "E210", "E220", "H010", "H020",
   "9900", "9990", "9999"]

/-- The per-type record-code counters of `determinarTipoSped`
(lines 615–620). -/
structure Contadores : Type where
  contribuicoes : Nat
  ecf : Nat
  ecd : Nat
  fiscal : Nat
deriving Repr, DecidableEq

/-- One iteration of the counting loop (lines 625–640): skip blank lines
and lines with fewer than two fields, then bump the counter of every type
whose identifier set contains the line's record code. -/
def contarLinha (c : Contadores) (linha : String) : Contadores :=
  if linha.trim = "" then c
  else
    let campos := linha.splitOn "|"
    if campos.length < 2 then c
    else
      let registro := (campos.get? 1).getD ""
      { contribuicoes := c.contribuicoes +
          (if registro ∈ identificadoresContribuicoes then 1 else 0)
        ecf := c.ecf + (if registro ∈ identificadoresEcf then 1 else 0)
        ecd := c.ecd + (if registro ∈ identificadoresEcd then 1 else 0)
        fiscal := c.fiscal + (if registro ∈ identificadoresFiscal then 1 else 0) }

/-- The counters over the first `min 100 linhas.length` lines
(lines 622–640). -/
def contadores (linhas : List String) : Contadores :=
  (linhas.take 100).foldl contarLinha ⟨0, 0, 0, 0⟩

/-- The winner selection of lines 642–651: start from `'fiscal'` with its
own count and walk the keys in insertion order
(contribuicoes, ecf, ecd, fiscal), replacing only on a strictly greater
count. -/
def selecionarTipo (c : Contadores) : TipoSped :=
  let t0 : TipoSped × Nat := (.fiscal, c.fiscal)
  let t1 := if c.contribuicoes > t0.2 then (TipoSped.contribuicoes, c.contribuicoes) else t0
  let t2 := if c.ecf > t1.2 then (TipoSped.ecf, c.ecf) else t1
  let t3 := if c.ecd > t2.2 then (TipoSped.ecd, c.ecd) else t2
  let t4 := if c.fiscal > t3.2 then (TipoSped.fiscal, c.fiscal) else t3
  t4.1

/-- Embeds `determinarTipoSped` (part_000 lines 530–655): empty line list
gives `'fiscal'` at once; a non-blank file name is classified first and a
decision other than `'indefinido'` wins; otherwise the record-code
histogram decides. -/
def determinarTipoSped (linhas : List String) (nomeArquivo : String) : TipoSped :=
  if linhas = [] then .fiscal
  else if nomeArquivo.trim ≠ "" then
    let t := determinarTipoPorNomeArquivo nomeArquivo
    if t ≠ .indefinido then t
    else selecionarTipo (contadores linhas)
  else selecionarTipo (contadores linhas)

/-- C8 (counterexample): for the file name `"xyz.efd"` none of the four
ordered pattern groups matches, and the record-code histogram over five
`"|M100|x"` lines selects federal-contributions, yet the classifier
returns `fiscal`: the `.efd`/`.sped` extension fallback decides from the
name and the content scan never runs, contradicting the claim that with
no pattern-group match the count decides. -/
theorem determinarTipoSped_claim_counterexample :
    padroesPisConfins "xyz.efd" = false ∧
    padroesEcf "xyz.efd" = false ∧
    padroesEcd "xyz.efd" = false ∧
    padroesFiscal "xyz.efd" = false ∧
    contadores (List.replicate 5 "|M100|x") = ⟨5, 0, 0, 0⟩ ∧
    selecionarTipo ⟨5, 0, 0, 0⟩ = TipoSped.contribuicoes ∧
    determinarTipoSped (List.replicate 5 "|M100|x") "xyz.efd" = TipoSped.fiscal := by
  refine ⟨by decide, by decide, by decide, by decide,
    by with_unfolding_all rfl, by decide, by with_unfolding_all rfl⟩

/-- C8 (amended): an empty line list yields `fiscal` at once; a non-blank
file name is matched against the ordered pattern groups
(federal-contributions, then ECF, then ECD, then goods-tax), the first
match winning; when no group matches, a file whose extension is
`efd`/`sped` is still decided from name keywords, and only a name
classified `indefinido` (or blank) falls back to the record-code
histogram over the non-blank lines among the first 100, where a type
with a strictly highest count wins and a total tie — including all-zero —
defaults to `fiscal`. -/
theorem determinarTipoSped_spec :
    (∀ nome, determinarTipoSped [] nome = TipoSped.fiscal) ∧
    (∀ linhas nome, linhas ≠ [] → nome.trim ≠ "" →
      determinarTipoPorNomeArquivo nome ≠ TipoSped.indefinido →
      determinarTipoSped linhas nome = determinarTipoPorNomeArquivo nome) ∧
    (∀ nome, nome ≠ "" → padroesPisConfins nome.toLower →
      determinarTipoPorNomeArquivo nome = TipoSped.contribuicoes) ∧
    (∀ nome, nome ≠ "" → ¬ padroesPisConfins nome.toLower →
      padroesEcf nome.toLower →
      determinarTipoPorNomeArquivo nome = TipoSped.ecf) ∧
    (∀ nome, nome ≠ "" → ¬ padroesPisConfins nome.toLower →
      ¬ padroesEcf nome.toLower → padroesEcd nome.toLower →
      determinarTipoPorNomeArquivo nome = TipoSped.ecd) ∧
    (∀ nome, nome ≠ "" → ¬ padroesPisConfins nome.toLower →
      ¬ padroesEcf nome.toLower → ¬ padroesEcd nome.toLower →
      padroesFiscal nome.toLower →
      determinarTipoPorNomeArquivo nome = TipoSped.fiscal) ∧
    (∀ nome, nome ≠ "" → ¬ padroesPisConfins nome.toLower →
      ¬ padroesEcf nome.toLower → ¬ padroesEcd nome.toLower →
      ¬ padroesFiscal nome.toLower →
      (nome.toLower.splitOn ".").getLastD "" ≠ "efd" →
      (nome.toLower.splitOn ".").getLastD "" ≠ "sped" →
      determinarTipoPorNomeArquivo nome = TipoSped.indefinido) ∧
    (∀ linhas nome, linhas ≠ [] →
      (nome.trim = "" ∨ determinarTipoPorNomeArquivo nome = TipoSped.indefinido) →
      determinarTipoSped linhas nome = selecionarTipo (contadores linhas)) ∧
    (∀ c : Contadores, c.ecf < c.contribuicoes → c.ecd < c.contribuicoes →
      c.fiscal < c.contribuicoes → selecionarTipo c = TipoSped.contribuicoes) ∧
    (∀ c : Contadores, c.contribuicoes < c.ecf → c.ecd < c.ecf →
      c.fiscal < c.ecf → selecionarTipo c = TipoSped.ecf) ∧
    (∀ c : Contadores, c.contribuicoes < c.ecd → c.ecf < c.ecd →
      c.fiscal < c.ecd → selecionarTipo c = TipoSped.ecd) ∧
    (∀ c : Contadores, c.contribuicoes < c.fiscal → c.ecf < c.fiscal →
      c.ecd < c.fiscal → selecionarTipo c = TipoSped.fiscal) ∧
    (∀ c : Contadores, c.contribuicoes = c.ecf → c.ecf = c.ecd →
      c.ecd = c.fiscal → selecionarTipo c = TipoSped.fiscal) := by
  refine ⟨?_, ?_, ?_, ?_, ?_, ?_, ?_, ?_, ?_, ?_, ?_, ?_, ?_⟩
  · intro nome
    simp [determinarTipoSped]
  · intro linhas nome h1 h2 h3
    simp [determinarTipoSped, h1, h2, h3]
  · intro nome h1 h2
    simp [determinarTipoPorNomeArquivo, h1, h2]
  · intro nome h1 h2 h3
    simp [determinarTipoPorNomeArquivo, h1, h2, h3]
  · intro nome h1 h2 h3 h4
    simp [determinarTipoPorNomeArquivo, h1, h2, h3, h4]
  · intro nome h1 h2 h3 h4 h5
    simp [determinarTipoPorNomeArquivo, h1, h2, h3, h4, h5]
  · intro nome h1 h2 h3 h4 h5 h6 h7
    rw [List.getLastD_eq_getLast?] at h6 h7
    simp [determinarTipoPorNomeArquivo, h1, h2, h3, h4, h5, h6, h7]
  · intro linhas nome h1 h2
    rcases h2 with h2 | h2
    · simp [determinarTipoSped, h1, h2]
    · by_cases h3 : nome.trim = ""
      · simp [determinarTipoSped, h1, h3]
      · simp [determinarTipoSped, h1, h3, h2]
  · intro c h1 h2 h3
    simp only [selecionarTipo]
    split_ifs <;> first | rfl | omega
  · intro c h1 h2 h3
    simp only [selecionarTipo]
    split_ifs <;> first | rfl | omega
  · intro c h1 h2 h3
    simp only [selecionarTipo]
    split_ifs <;> first | rfl | omega
  · intro c h1 h2 h3
    simp only [selecionarTipo]
    split_ifs <;> first | rfl | omega
  · intro c h1 h2 h3
    simp only [selecionarTipo]
    split_ifs <;> first | rfl | omega

/-- Witness for the amended C8 at concrete names, line lists and counters. -/
theorem determinarTipoSped_spec_witness :
    determinarTipoSped ["|C100|x"] "sped_fiscal.txt" =
      determinarTipoPorNomeArquivo "sped_fiscal.txt" ∧
    determinarTipoPorNomeArquivo "EFD_PIS_COFINS.txt" = TipoSped.contribuicoes ∧
    determinarTipoPorNomeArquivo "dados.txt" = TipoSped.indefinido ∧
    determinarTipoSped ["|Z999|x"] "dados.txt" =
      selecionarTipo (contadores ["|Z999|x"]) ∧
    selecionarTipo ⟨3, 1, 0, 2⟩ = TipoSped.contribuicoes ∧
    selecionarTipo ⟨0, 0, 0, 0⟩ = TipoSped.fiscal := by
  have h := determinarTipoSped_spec
  refine ⟨?_, ?_, ?_, ?_, ?_, ?_⟩
  · exact h.2.1 ["|C100|x"] "sped_fiscal.txt" (by decide)
      (by with_unfolding_all decide) (by with_unfolding_all decide)
  · exact h.2.2.1 "EFD_PIS_COFINS.txt" (by decide) (by with_unfolding_all decide)
  · exact h.2.2.2.2.2.2.1 "dados.txt" (by decide)
      (by with_unfolding_all decide) (by with_unfolding_all decide)
      (by with_unfolding_all decide) (by with_unfolding_all decide)
      (by with_unfolding_all decide) (by with_unfolding_all decide)
  · exact h.2.2.2.2.2.2.2.1 ["|Z999|x"] "dados.txt" (by decide)
      (Or.inr (by with_unfolding_all rfl))
  · exact h.2.2.2.2.2.2.2.2.1 ⟨3, 1, 0, 2⟩ (by decide) (by decide) (by decide)
  · exact h.2.2.2.2.2.2.2.2.2.2.2.2 ⟨0, 0, 0, 0⟩ rfl rfl rfl

/-! ## The tax-composition resolver data model
(src/js/importador/importador/sped-extractor.js) -/

/-- A federal-contribution debit record as `calcularDebitosPIS`/`COFINS`
read it (lines 901–913): the two candidate value fields, each possibly a
number, a string or absent. -/
structure RegistroContribuicao : Type where
  valorTotalContribuicao : JsVal
  valorContribuicaoAPagar : JsVal
deriving Repr, DecidableEq

/-- An apuração record (`m200`/`m600` buckets, lines 935–948 and
1024–1037): the named field plus the raw field 5 the code indexes as
`reg[5]`. -/
structure RegistroApuracaoContrib : Type where
  valorContribuicaoApurada : JsVal
  campo5 : Option String
deriving Repr, DecidableEq

/-- An ICMS debit record as `calcularDebitosICMS` priority 1 reads it
(line 1078): two candidate numeric fields (the aggregator stores numbers
decoded with `parseValorMonetario` there). -/
structure RegistroIcmsDebito : Type where
  valorTotalDebitos : Option ℚ
  valorSaldoAPagar : Option ℚ
deriving Repr, DecidableEq

/-- An `e110` record (lines 1095–1100): the named field plus raw field 2. -/
structure RegistroE110 : Type where
  valorTotalDebitos : JsVal
  campo2 : Option String
deriving Repr, DecidableEq

/-- A `c190` analytic record (lines 1109–1127): CFOP, the named ICMS
value and raw field 7. -/
structure RegistroC190Sped : Type where
  cfop : Option String
  valorIcms : JsVal
  campo7 : Option String
deriving Repr, DecidableEq

/-- An IPI apuração record (only presence and `valorTotalDebitos` are
read by the functions embedded here). -/
structure RegistroIpiApuracao : Type where
  valorTotalDebitos : Option ℚ
deriving Repr, DecidableEq

/-- `dadosSped.debitos`. -/
structure DebitosSped : Type where
  pis : Option (List RegistroContribuicao)
  cofins : Option (List RegistroContribuicao)
  icms : Option (List RegistroIcmsDebito)
  ipi : Option (List RegistroIpiApuracao)
  m200 : Option (List RegistroApuracaoContrib)
  m600 : Option (List RegistroApuracaoContrib)
  e110 : Option (List RegistroE110)
deriving Repr, DecidableEq

/-- `dadosSped.impostos`. -/
structure ImpostosSped : Type where
  c190 : Option (List RegistroC190Sped)
  ipi : Option (List RegistroIpiApuracao)
  simples : Option (List Unit)
deriving Repr, DecidableEq

/-- `dadosSped.creditos` — only the lengths of the PIS/COFINS buckets are
read by the regime heuristics embedded here. -/
structure CreditosSped : Type where
  pis : Option (List Unit)
  cofins : Option (List Unit)
deriving Repr, DecidableEq

/-- `regimes.pis_cofins`. -/
structure RegimePisCofins : Type where
  codigoIncidencia : Option String
deriving Repr, DecidableEq

/-- `dadosSped.regimes`. -/
structure RegimesSped : Type where
  pis_cofins : Option RegimePisCofins
deriving Repr, DecidableEq

/-- `dadosSped.ecf.parametros`. -/
structure EcfParametros : Type where
  formaApuracao : Option String
deriving Repr, DecidableEq

/-- `dadosSped.ecf`. -/
structure EcfSped : Type where
  parametros : Option EcfParametros
deriving Repr, DecidableEq

/-- `dadosSped.contribuicoes` as read by `determinarRegimePisCofins`
(line 1872). -/
structure ContribuicoesAninhadas : Type where
  regimes : Option RegimesSped
deriving Repr, DecidableEq

/-- `dadosSped.empresa` as read by `calcularDebitosICMS` priority 4. -/
structure EmpresaSped : Type where
  uf : Option String
deriving Repr, DecidableEq

/-- A line item carrying a CFOP (`extrairCFOPs`, lines 2123–2139). -/
structure ItemCfop : Type where
  cfop : Option String
deriving Repr, DecidableEq

/-- The slice of the aggregated SPED data read by the debit calculators
and the regime/sector heuristics. -/
structure DadosSped : Type where
  debitos : Option DebitosSped
  impostos : Option ImpostosSped
  creditos : Option CreditosSped
  regimes : Option RegimesSped
  ecf : Option EcfSped
  contribuicoes : Option ContribuicoesAninhadas
  empresa : Option EmpresaSped
  itens : Option (List ItemCfop)
  itensAnaliticos : Option (List ItemCfop)
deriving Repr, DecidableEq

/-- The all-absent SPED dataset (a convenient base for examples). -/
def dadosSpedVazio : DadosSped :=
  ⟨none, none, none, none, none, none, none, none, none⟩

/-- Embeds the object branch of `extrairValorSeguro` (lines 720–748), as
used on the apuração records: a number is kept only inside (0, 1e9)
(otherwise the default 0), a string goes through `parseValorMonetario`,
anything else yields the default 0.  (The `Array.isArray` branch cannot
fire: the argument is an object record.) -/
def extrairValorSeguro : JsVal → ℚ
  | .num v => if 0 < v ∧ v < 1000000000 then v else 0
  | .str s => parseValorMonetario s
  | .undef => 0

/-- `parseFloat(reg[i]?.replace(',', '.') || 0)`: the raw-field fallback
of the priority-2/3 readers. -/
def valorCampoNum : Option String → ℚ
  | none => 0
  | some s => jsParseFloatD (replaceFirstChar ',' '.' s.toList)

/-- The value a PIS/COFINS debit record contributes (lines 901–913): the
first of `valorTotalContribuicao`/`valorContribuicaoAPagar` that is a
number, else the first that is a string (monetary-parsed), else 0. -/
def valorDebitoContribuicao (d : RegistroContribuicao) : ℚ :=
  match d.valorTotalContribuicao, d.valorContribuicaoAPagar with
  | .num v, _ => v
  | _, .num v => v
  | .str s, _ => parseValorMonetario s
  | _, .str s => parseValorMonetario s
  | _, _ => 0

/-- Priority-1 total for PIS/COFINS (lines 900–922): sum the record
values, discarding any value outside (0, 1e9). -/
def totalDebitosContribuicao (regs : List RegistroContribuicao) : ℚ :=
  regs.foldl
    (fun acc d =>
      let v := valorDebitoContribuicao d
      if 0 < v ∧ v < 1000000000 then acc + v else acc) 0

/-- Priority-2 total over the `m200`/`m600` records (lines 935–948):
named field via `extrairValorSeguro`, falling back to raw field 5,
summing only positive values. -/
def valorApuracaoContrib (regs : List RegistroApuracaoContrib) : ℚ :=
  regs.foldl
    (fun acc reg =>
      let v0 := extrairValorSeguro reg.valorContribuicaoApurada
      let v := if v0 = 0 then valorCampoNum reg.campo5 else v0
      if 0 < v then acc + v else acc) 0

/-- The value an ICMS debit record contributes in priority 1 (line 1078):
`valorTotalDebitos || valorSaldoAPagar || 0` — with no range filter. -/
def valorDebitoIcms (d : RegistroIcmsDebito) : ℚ :=
  jsOrNum d.valorTotalDebitos (jsOrNum d.valorSaldoAPagar 0)

/-- Priority-1 total for ICMS (lines 1076–1081): a plain sum of the
record values, negative or huge values included. -/
def somaDebitosIcms (regs : List RegistroIcmsDebito) : ℚ :=
  regs.foldl (fun acc d => acc + valorDebitoIcms d) 0

/-- Priority-2 total over `e110` records (lines 1094–1100). -/
def valorE110 (regs : List RegistroE110) : ℚ :=
  regs.foldl
    (fun acc reg =>
      let v0 := extrairValorSeguro reg.valorTotalDebitos
      let v := if v0 = 0 then valorCampoNum reg.campo2 else v0
      acc + (if 0 < v then v else 0)) 0

/-- Priority-3 total over outbound `c190` records (lines 1109–1121):
filter CFOPs starting with 5 or 6, then sum the positive ICMS values. -/
def valorC190 (regs : List RegistroC190Sped) : ℚ :=
  (regs.filter (fun reg =>
      let cfop := reg.cfop.getD ""
      cfop.startsWith "5" || cfop.startsWith "6")).foldl
    (fun acc reg =>
      let v0 := extrairValorSeguro reg.valorIcms
      let v := if v0 = 0 then valorCampoNum reg.campo7 else v0
      acc + (if 0 < v then v else 0)) 0

/-- Embeds `extrairCFOPs` (lines 2123–2139): the distinct truthy CFOPs of
`itens` then `itensAnaliticos`, in first-seen order (a JS `Set`). -/
def extrairCFOPs (dadosSped : DadosSped) : List String :=
  let adiciona := fun (acc : List String) (l : List ItemCfop) =>
    l.foldl
      (fun acc item =>
        match item.cfop with
        | some c => if c ≠ "" ∧ c ∉ acc then acc ++ [c] else acc
        | none => acc) acc
  adiciona (adiciona [] (dadosSped.itens.getD [])) (dadosSped.itensAnaliticos.getD [])

/-- Embeds `determinarTipoEmpresa` (lines 1887–1896): IPI records mean
industry, else the CFOP analysis decides. -/
def determinarTipoEmpresa (dadosSped : DadosSped) : Setor :=
  if 0 < ((dadosSped.impostos.bind (·.ipi)).getD []).length ∨
      0 < ((dadosSped.debitos.bind (·.ipi)).getD []).length then .industria
  else analisarCFOPs (extrairCFOPs dadosSped)

/-- Embeds `determinarRegimeTributario` (lines 1828–1858). -/
def determinarRegimeTributario (dadosSped : DadosSped) : String :=
  let forma := ((dadosSped.ecf.bind (·.parametros)).bind (·.formaApuracao)).getD ""
  if forma ≠ "" ∧ (forma = "1" ∨ forma = "2") then "real"
  else if forma ≠ "" ∧ (forma = "3" ∨ forma = "4") then "presumido"
  else if forma ≠ "" ∧ (forma = "5" ∨ forma = "6" ∨ forma = "7") then "simples"
  else
    let codigo := (dadosSped.regimes.bind (·.pis_cofins)).bind (·.codigoIncidencia)
    if codigo = some "1" then "real"
    else if codigo = some "2" then "presumido"
    else if 0 < ((dadosSped.impostos.bind (·.simples)).getD []).length then "simples"
    else if 0 < ((dadosSped.creditos.bind (·.pis)).getD []).length ∨
        0 < ((dadosSped.creditos.bind (·.cofins)).getD []).length then "real"
    else "presumido"

/-- Embeds `determinarRegimePisCofins` (lines 1863–1882). -/
def determinarRegimePisCofins (dadosSped : DadosSped) : String :=
  let c1 := (dadosSped.regimes.bind (·.pis_cofins)).bind (·.codigoIncidencia)
  if c1 = some "1" then "nao-cumulativo"
  else if c1 = some "2" then "cumulativo"
  else if c1 = some "3" then "nao-cumulativo"
  else
    let c2 := (((dadosSped.contribuicoes.bind (·.regimes)).bind
      (·.pis_cofins)).bind (·.codigoIncidencia))
    if c2 = some "1" then "nao-cumulativo"
    else if c2 = some "2" then "cumulativo"
    else if c2 = some "3" then "nao-cumulativo"
    else if determinarRegimeTributario dadosSped = "real" then "nao-cumulativo"
    else "cumulativo"

/-- The per-state average ICMS rate table of `obterAliquotaMediaEstado`
(lines 1694–1729). -/
def aliquotasPorUf : List (String × ℚ) :=
  [("AC", 0.19), ("AL", 0.20), ("AP", 0.18), ("AM", 0.20), ("BA", 0.205),
   ("CE", 0.20), ("DF", 0.20), ("ES", 0.17), ("GO", 0.19), ("MA", 0.23),
   ("MT", 0.17), ("MS", 0.17), ("MG", 0.18), ("PA", 0.19), ("PB", 0.20),
   ("PR", 0.195), ("PE", 0.205), ("PI", 0.225), ("RJ", 0.20), ("RN", 0.20),
   ("RS", 0.17), ("RO", 0.195), ("RR", 0.20), ("SC", 0.17), ("SP", 0.18),
   ("SE", 0.20), ("TO", 0.20)]

/-- Embeds `obterAliquotaMediaEstado` (lines 1694–1729): uppercase lookup
with an 18% default. -/
def obterAliquotaMediaEstado (uf : String) : ℚ :=
  match aliquotasPorUf.lookup uf.toUpper with
  | some v => if v = 0 then 0.18 else v
  | none => 0.18

/-- Embeds `calcularDebitosPIS` (lines 887–970): priority 1 the direct
PIS debit records (range-filtered sum), priority 2 the `m200`
totalisation, priority 3 a regime-conditioned estimate on revenue. -/
def calcularDebitosPIS (dadosSped : DadosSped) (faturamentoMensal : ℚ) : ℚ :=
  let pisRegs := (dadosSped.debitos.bind (·.pis)).getD []
  if 0 < pisRegs.length ∧ 0 < totalDebitosContribuicao pisRegs then
    totalDebitosContribuicao pisRegs
  else
    let m200Regs := (dadosSped.debitos.bind (·.m200)).getD []
    if 0 < m200Regs.length ∧ 0 < valorApuracaoContrib m200Regs then
      valorApuracaoContrib m200Regs
    else if 0 < faturamentoMensal then
      if determinarRegimeTributario dadosSped = "simples" then 0
      else if determinarRegimePisCofins dadosSped = "nao-cumulativo" then
        faturamentoMensal * 0.0165
      else faturamentoMensal * 0.0065
    else 0

/-- Embeds `calcularDebitosCOFINS` (lines 975–1059), the same chain with
the `m600` bucket and the COFINS rates. -/
def calcularDebitosCOFINS (dadosSped : DadosSped) (faturamentoMensal : ℚ) : ℚ :=
  let cofinsRegs := (dadosSped.debitos.bind (·.cofins)).getD []
  if 0 < cofinsRegs.length ∧ 0 < totalDebitosContribuicao cofinsRegs then
    totalDebitosContribuicao cofinsRegs
  else
    let m600Regs := (dadosSped.debitos.bind (·.m600)).getD []
    if 0 < m600Regs.length ∧ 0 < valorApuracaoContrib m600Regs then
      valorApuracaoContrib m600Regs
    else if 0 < faturamentoMensal then
      if determinarRegimeTributario dadosSped = "simples" then 0
      else if determinarRegimePisCofins dadosSped = "nao-cumulativo" then
        faturamentoMensal * 0.076
      else faturamentoMensal * 0.03
    else 0

/-- Embeds `calcularDebitosICMS` (lines 1064–1150): priority 1 the direct
ICMS debit records (plain sum, no range filter), priority 2 the `e110`
records, priority 3 the outbound `c190` records, priority 4 a sector and
state-rate estimate on 60% of revenue. -/
def calcularDebitosICMS (dadosSped : DadosSped) (faturamentoMensal : ℚ) : ℚ :=
  let icmsRegs := (dadosSped.debitos.bind (·.icms)).getD []
  if 0 < icmsRegs.length ∧ 0 < somaDebitosIcms icmsRegs then
    somaDebitosIcms icmsRegs
  else
    let e110Regs := (dadosSped.debitos.bind (·.e110)).getD []
    if 0 < e110Regs.length ∧ 0 < valorE110 e110Regs then valorE110 e110Regs
    else
      let c190Regs := (dadosSped.impostos.bind (·.c190)).getD []
      if 0 < c190Regs.length ∧ 0 < valorC190 c190Regs then valorC190 c190Regs
      else if determinarTipoEmpresa dadosSped ≠ .servicos ∧
          0 < faturamentoMensal then
        let aliquotaMedia :=
          match dadosSped.empresa.bind (·.uf) with
          | some uf => if uf ≠ "" then obterAliquotaMediaEstado uf.toUpper else 0.18
          | none => 0.18
        faturamentoMensal * 0.6 * aliquotaMedia
      else 0

/-- ICMS priority-1 total as the claim describes it: the direct ledger
debit records for the tax, summed after discarding entries outside
(0, 1e9).  (This is what the code does for PIS/COFINS, not for ICMS.) -/
def somaFiltradaIcms (regs : List RegistroIcmsDebito) : ℚ :=
  regs.foldl
    (fun acc d =>
      let v := valorDebitoIcms d
      if 0 < v ∧ v < 1000000000 then acc + v else acc) 0

/-- A dataset whose direct ICMS debit records are one normal entry (100)
and one out-of-range entry (2·10⁹). -/
def dadosIcmsExemplo : DadosSped :=
  { dadosSpedVazio with
    debitos := some
      ⟨none, none, some [⟨some 100, none⟩, ⟨some 2000000000, none⟩],
        none, none, none, none⟩ }

/-- C2 (counterexample): the claim's first-priority total (after
discarding entries outside (0, 1e9)) is 100 — positive — so the claim
requires `calcularDebitosICMS` to return 100; the code returns
2 000 000 100, because its ICMS priority-1 sum applies no range filter. -/
theorem calcularDebitosICMS_claim_counterexample :
    somaFiltradaIcms [⟨some 100, none⟩, ⟨some 2000000000, none⟩] = 100 ∧
    (0 : ℚ) < 100 ∧
    calcularDebitosICMS dadosIcmsExemplo 0 = 2000000100 ∧
    (2000000100 : ℚ) ≠ 100 := by
  refine ⟨by with_unfolding_all rfl, by norm_num,
    by with_unfolding_all rfl, by norm_num⟩

/-- C2 (amended): whenever the first-priority source total of a tax's
debit chain is positive, the resolver returns exactly that total,
regardless of the later-priority sources — where the first-priority total
is the (0, 1e9)-filtered sum of the direct debit records for PIS and
COFINS, but the unfiltered sum of
`valorTotalDebitos || valorSaldoAPagar || 0` for ICMS. -/
theorem calcularDebitos_prioridade1 :
    (∀ (d : DadosSped) (fat : ℚ),
      0 < totalDebitosContribuicao ((d.debitos.bind (·.pis)).getD []) →
      calcularDebitosPIS d fat =
        totalDebitosContribuicao ((d.debitos.bind (·.pis)).getD [])) ∧
    (∀ (d : DadosSped) (fat : ℚ),
      0 < totalDebitosContribuicao ((d.debitos.bind (·.cofins)).getD []) →
      calcularDebitosCOFINS d fat =
        totalDebitosContribuicao ((d.debitos.bind (·.cofins)).getD [])) ∧
    (∀ (d : DadosSped) (fat : ℚ),
      0 < somaDebitosIcms ((d.debitos.bind (·.icms)).getD []) →
      calcularDebitosICMS d fat =
        somaDebitosIcms ((d.debitos.bind (·.icms)).getD [])) := by
  refine ⟨?_, ?_, ?_⟩
  · intro d fat h
    have hne : ((d.debitos.bind (·.pis)).getD []) ≠ [] := by
      intro he
      rw [he] at h
      simp [totalDebitosContribuicao] at h
    have hlen : 0 < ((d.debitos.bind (·.pis)).getD []).length :=
      List.length_pos.mpr hne
    unfold calcularDebitosPIS
    rw [if_pos ⟨hlen, h⟩]
  · intro d fat h
    have hne : ((d.debitos.bind (·.cofins)).getD []) ≠ [] := by
      intro he
      rw [he] at h
      simp [totalDebitosContribuicao] at h
    have hlen : 0 < ((d.debitos.bind (·.cofins)).getD []).length :=
      List.length_pos.mpr hne
    unfold calcularDebitosCOFINS
    rw [if_pos ⟨hlen, h⟩]
  · intro d fat h
    have hne : ((d.debitos.bind (·.icms)).getD []) ≠ [] := by
      intro he
      rw [he] at h
      simp [somaDebitosIcms] at h
    have hlen : 0 < ((d.debitos.bind (·.icms)).getD []).length :=
      List.length_pos.mpr hne
    unfold calcularDebitosICMS
    rw [if_pos ⟨hlen, h⟩]

/-- A dataset with one direct PIS debit record of 1650 and an `m200`
bucket whose totalisation would give 999 — the later source must lose. -/
def dadosPisExemplo : DadosSped :=
  { dadosSpedVazio with
    debitos := some
      ⟨some [⟨.num 1650, .undef⟩], none, none, none,
        some [⟨.num 999, none⟩], none, none⟩ }

/-- Witness for the amended C2: priority 1 wins at concrete inputs. -/
theorem calcularDebitos_prioridade1_witness :
    calcularDebitosPIS dadosPisExemplo 100000 = 1650 ∧
    calcularDebitosCOFINS
      { dadosSpedVazio with
        debitos := some
          ⟨none, some [⟨.num 760, .undef⟩], none, none, none, none, none⟩ }
      0 = 760 ∧
    calcularDebitosICMS dadosIcmsExemplo 7 = 2000000100 := by
  have h := calcularDebitos_prioridade1
  refine ⟨?_, ?_, ?_⟩
  · have hval : totalDebitosContribuicao
        ((dadosPisExemplo.debitos.bind (·.pis)).getD []) = 1650 := by
      with_unfolding_all rfl
    have hpos : (0 : ℚ) < totalDebitosContribuicao
        ((dadosPisExemplo.debitos.bind (·.pis)).getD []) := by
      rw [hval]; norm_num
    rw [h.1 dadosPisExemplo 100000 hpos, hval]
  · have hval : totalDebitosContribuicao
        ((({ dadosSpedVazio with
            debitos := some
              ⟨none, some [⟨.num 760, .undef⟩], none, none, none, none,
                none⟩ } : DadosSped).debitos.bind (·.cofins)).getD []) =
        760 := by
      with_unfolding_all rfl
    have hpos := hval ▸ (show (0 : ℚ) < 760 by norm_num)
    rw [h.2.1 _ 0 hpos, hval]
  · have hval : somaDebitosIcms
        ((dadosIcmsExemplo.debitos.bind (·.icms)).getD []) = 2000000100 := by
      with_unfolding_all rfl
    have hpos : (0 : ℚ) < somaDebitosIcms
        ((dadosIcmsExemplo.debitos.bind (·.icms)).getD []) := by
      rw [hval]; norm_num
    rw [h.2.2 dadosIcmsExemplo 7 hpos, hval]

/-! ## The effective-rate block and `calcularParametrosFiscais` -/

/-- `validarValorMonetario` is called at sped-extractor.js lines 824–825
(inside `extrairParametrosFiscais`) and lines 2952–2953 (inside
`calcularParametrosFiscais`), but it is defined nowhere in the
repository's five source files, so every call throws
`ReferenceError: validarValorMonetario is not defined`. -/
def validarValorMonetarioCall (_ : ℚ) : Except JsError ℚ :=
  .error (.referenceError "validarValorMonetario")

/-- The five per-tax monetary values of `composicaoTributaria.debitos` /
`creditos` as built at lines 782–796. -/
structure ComposicaoValores : Type where
  pis : ℚ
  cofins : ℚ
  icms : ℚ
  ipi : ℚ
  iss : ℚ
deriving Repr, DecidableEq

/-- The `composicaoTributaria` accumulator of `extrairParametrosFiscais`
(lines 782–805), restricted to what the effective-rate block reads and
writes. -/
structure ComposicaoTributaria : Type where
  debitos : ComposicaoValores
  creditos : ComposicaoValores
  aliquotasEfetivas : List (String × ℚ)
deriving Repr, DecidableEq

/-- Embeds the effective-rate block of `extrairParametrosFiscais`
(sped-extractor.js lines 820–873).  With positive revenue the block
iterates over the debit keys (`pis` first) and its first statement calls
the undefined `validarValorMonetario` (line 824), so the whole block
throws before any rate — clamped or not — is stored; the `pure comp`
after the two calls types the dead continuation (lines 826–861), which no
execution reaches.  With revenue 0 the `else` branch (lines 862–873)
stores the statutory defaults. -/
def calcularAliquotasEfetivas (faturamentoMensal : ℚ)
    (comp : ComposicaoTributaria) : Except JsError ComposicaoTributaria :=
  if 0 < faturamentoMensal then do
    let _debito ← validarValorMonetarioCall comp.debitos.pis
    let _credito ← validarValorMonetarioCall comp.creditos.pis
    pure comp
  else
    pure { comp with
      aliquotasEfetivas :=
        [("pis", 0.0065), ("cofins", 0.03), ("icms", 0.18),
         ("ipi", 0), ("iss", 0), ("total", 0.2165)] }

/-- C3: the effective-rate clamp can never run.  For every positive
revenue the block throws `ReferenceError: validarValorMonetario is not
defined` before computing any rate — in particular it never substitutes
the statutory default for an out-of-range rate — and only the zero-revenue
branch ever writes (default) rates. -/
theorem calcularAliquotasEfetivas_lanca
    (faturamentoMensal : ℚ) (comp : ComposicaoTributaria)
    (h : 0 < faturamentoMensal) :
    calcularAliquotasEfetivas faturamentoMensal comp =
      .error (.referenceError "validarValorMonetario") := by
  unfold calcularAliquotasEfetivas
  rw [if_pos h]
  rfl

/-- Witness for C3 at the claim's scenario: revenue 100 000 and a PIS
debit of 200 000 — a net burden of 200% of revenue, which the claim says
is replaced by the 0.65% default; instead the call throws. -/
theorem calcularAliquotasEfetivas_lanca_witness :
    calcularAliquotasEfetivas 100000
      ⟨⟨200000, 0, 0, 0, 0⟩, ⟨0, 0, 0, 0, 0⟩, []⟩ =
      .error (.referenceError "validarValorMonetario") :=
  calcularAliquotasEfetivas_lanca 100000
    ⟨⟨200000, 0, 0, 0, 0⟩, ⟨0, 0, 0, 0, 0⟩, []⟩ (by norm_num)

/-- A credit record (`valorCredito` may be number, string or absent). -/
structure RegistroCredito : Type where
  valorCredito : JsVal
deriving Repr, DecidableEq

/-- `spedContribuicoes.debitos` as `calcularParametrosFiscais` reads it. -/
structure ContribDebitos : Type where
  pis : Option (List RegistroContribuicao)
  cofins : Option (List RegistroContribuicao)
deriving Repr, DecidableEq

/-- `spedContribuicoes.creditos`. -/
structure ContribCreditos : Type where
  pis : Option (List RegistroCredito)
  cofins : Option (List RegistroCredito)
deriving Repr, DecidableEq

/-- `spedContribuicoes.receitas` — the gross-revenue declaration carried
by the consolidated dataset (not read by `calcularParametrosFiscais`
itself, whose revenue identifier is unresolvable; see below). -/
structure ContribReceitas : Type where
  receitaBrutaTotal : ℚ
deriving Repr, DecidableEq

/-- The `spedContribuicoes` argument of `calcularParametrosFiscais`. -/
structure SpedContribuicoes : Type where
  debitos : Option ContribDebitos
  creditos : Option ContribCreditos
  receitas : Option ContribReceitas
deriving Repr, DecidableEq

/-- A fiscal debit record (`valorTotalDebitos`). -/
structure RegistroFiscalDebito : Type where
  valorTotalDebitos : JsVal
deriving Repr, DecidableEq

/-- `spedFiscal.debitos`. -/
structure FiscalDebitos : Type where
  icms : Option (List RegistroFiscalDebito)
  ipi : Option (List RegistroFiscalDebito)
deriving Repr, DecidableEq

/-- `spedFiscal.creditos`. -/
structure FiscalCreditos : Type where
  icms : Option (List RegistroCredito)
deriving Repr, DecidableEq

/-- The `spedFiscal` argument of `calcularParametrosFiscais`. -/
structure SpedFiscal : Type where
  debitos : Option FiscalDebitos
  creditos : Option FiscalCreditos
deriving Repr, DecidableEq

/-- A value tagged with its data source, as built by `criarValorComFonte`
(lines 67–76); the free-form `metadados` (timestamp, record counts) is
not modelled.  `criarValorComFonte` runs its numeric argument through
`parseValorMonetario`, which is the identity on numbers. -/
structure ValorComFonte : Type where
  valor : ℚ
  fonte : String
deriving Repr, DecidableEq

/-- The per-tax maps of `parametros.composicaoTributaria`
(lines 2855–2860): a tax key is present only once its branch ran. -/
structure MapaValores : Type where
  pis : Option ValorComFonte
  cofins : Option ValorComFonte
  icms : Option ValorComFonte
  ipi : Option ValorComFonte
deriving Repr, DecidableEq

/-- The `fontesDados` provenance map (lines 2859, 2873–2942). -/
structure FontesDados : Type where
  pis_debito : Option String
  pis_credito : Option String
  cofins_debito : Option String
  cofins_credito : Option String
  icms_debito : Option String
  icms_credito : Option String
  ipi_debito : Option String
deriving Repr, DecidableEq

/-- `parametros.composicaoTributaria` of `calcularParametrosFiscais`. -/
structure ComposicaoParametros : Type where
  debitos : MapaValores
  creditos : MapaValores
  aliquotasEfetivas : List (String × ℚ)
  fontesDados : FontesDados
deriving Repr, DecidableEq

/-- The structure returned by `calcularParametrosFiscais`
(lines 2850–2861). -/
structure Parametros : Type where
  regimeTributario : String
  regimePISCOFINS : String
  composicaoTributaria : ComposicaoParametros
deriving Repr, DecidableEq

/-- `reduce((sum, d) => sum + parseValorMonetario(d.valorTotalContribuicao
|| d.valorContribuicaoAPagar || 0), 0)` — lines 2866–2868 and 2889–2891. -/
def totalContribuicao (regs : List RegistroContribuicao) : ℚ :=
  regs.foldl
    (fun sum d => sum + parseValorMonetarioVal
      (d.valorTotalContribuicao.orElse
        (d.valorContribuicaoAPagar.orElse (.num 0)))) 0

/-- `reduce((sum, c) => sum + parseValorMonetario(c.valorCredito || 0), 0)`
— lines 2877–2879, 2900–2902, 2923–2925. -/
def totalCredito (regs : List RegistroCredito) : ℚ :=
  regs.foldl
    (fun sum c => sum + parseValorMonetarioVal
      (c.valorCredito.orElse (.num 0))) 0

/-- `reduce((sum, d) => sum + parseValorMonetario(d.valorTotalDebitos
|| 0), 0)` — lines 2912–2914 and 2935–2937. -/
def totalFiscalDebito (regs : List RegistroFiscalDebito) : ℚ :=
  regs.foldl
    (fun sum d => sum + parseValorMonetarioVal
      (d.valorTotalDebitos.orElse (.num 0))) 0

/-- The part of `calcularParametrosFiscais` that runs before the throw:
lines 2850–2943 build `parametros` and fill the debit/credit maps.  Note
the JS guards test object presence (`if (spedContribuicoes?.debitos?.pis)`),
which is true even for an empty array. -/
def buildParametros (spedFiscal : Option SpedFiscal)
    (spedContribuicoes : Option SpedContribuicoes) : Parametros :=
  let debPis := (spedContribuicoes.bind (·.debitos)).bind (·.pis)
  let credPis := (spedContribuicoes.bind (·.creditos)).bind (·.pis)
  let debCofins := (spedContribuicoes.bind (·.debitos)).bind (·.cofins)
  let credCofins := (spedContribuicoes.bind (·.creditos)).bind (·.cofins)
  let debIcms := (spedFiscal.bind (·.debitos)).bind (·.icms)
  let credIcms := (spedFiscal.bind (·.creditos)).bind (·.icms)
  let debIpi := (spedFiscal.bind (·.debitos)).bind (·.ipi)
  { regimeTributario := "real"
    regimePISCOFINS := "não-cumulativo"
    composicaoTributaria :=
      { debitos :=
          { pis := debPis.map (fun regs => ⟨totalContribuicao regs, "sped"⟩)
            cofins := debCofins.map (fun regs => ⟨totalContribuicao regs, "sped"⟩)
            icms := debIcms.map (fun regs => ⟨totalFiscalDebito regs, "sped"⟩)
            ipi := debIpi.map (fun regs => ⟨totalFiscalDebito regs, "sped"⟩) }
        creditos :=
          { pis := credPis.map (fun regs => ⟨totalCredito regs, "sped"⟩)
            cofins := credCofins.map (fun regs => ⟨totalCredito regs, "sped"⟩)
            icms := credIcms.map (fun regs => ⟨totalCredito regs, "sped"⟩)
            ipi := none }
        aliquotasEfetivas := []
        fontesDados :=
          { pis_debito := debPis.map (fun _ => "sped")
            pis_credito := credPis.map (fun _ => "sped")
            cofins_debito := debCofins.map (fun _ => "sped")
            cofins_credito := credCofins.map (fun _ => "sped")
            icms_debito := debIcms.map (fun _ => "sped")
            icms_credito := credIcms.map (fun _ => "sped")
            ipi_debito := debIpi.map (fun _ => "sped") } } }

/-- The rest of the `try` block (lines 2945–3007): its first evaluated
expression is the read of the identifier `faturamentoMensal` in
`if (faturamentoMensal > 0)` (line 2949).  `faturamentoMensal` — like
`composicaoTributaria` and `validarValorMonetario` below it — is not a
parameter, local or global of this function, so the read throws a
`ReferenceError` before the effective-rate block or the
`estimarValoresAusentes` call (line 3005) can run. -/
def calcularParametrosFiscaisResto (_ : Parametros) : Except JsError Parametros :=
  .error (.referenceError "faturamentoMensal")

/-- Embeds `calcularParametrosFiscais` (lines 2847–3013): build the
parameter structure, run the rest of the `try` block — which always
throws — and return the partially built structure from the `catch`
(lines 3009–3012). -/
def calcularParametrosFiscais (spedFiscal : Option SpedFiscal)
    (spedContribuicoes : Option SpedContribuicoes) : Parametros :=
  let parametros := buildParametros spedFiscal spedContribuicoes
  match calcularParametrosFiscaisResto parametros with
  | .ok p => p
  | .error _ => parametros

/-- `extrairValorNumerico` (lines 81–89) on an optional tagged value:
the `.valor` field when present, else 0. -/
def extrairValorNumericoOpt : Option ValorComFonte → ℚ
  | some v => v.valor
  | none => 0

/-- Embeds `estimarValoresAusentes` (lines 3018–3057), the sibling-tax
derivation: a missing COFINS debit is estimated from PIS with the fixed
7.6/1.65 ratio, a missing PIS from COFINS with 1.65/7.6, and a missing
ICMS as 3.5 × (PIS + COFINS); each estimate is tagged `"estimado"`.
(In the source this function is only called from line 3005, which is
unreachable.) -/
def estimarValoresAusentes (parametros : Parametros) : Parametros :=
  let comp := parametros.composicaoTributaria
  let comp :=
    if comp.debitos.cofins = none ∧ comp.debitos.pis ≠ none then
      let valorPIS := extrairValorNumericoOpt comp.debitos.pis
      { comp with
        debitos := { comp.debitos with
          cofins := some ⟨valorPIS * (7.6 / 1.65), "estimado"⟩ }
        fontesDados := { comp.fontesDados with
          cofins_debito := some "estimado" } }
    else comp
  let comp :=
    if comp.debitos.pis = none ∧ comp.debitos.cofins ≠ none then
      let valorCOFINS := extrairValorNumericoOpt comp.debitos.cofins
      { comp with
        debitos := { comp.debitos with
          pis := some ⟨valorCOFINS * (1.65 / 7.6), "estimado"⟩ }
        fontesDados := { comp.fontesDados with
          pis_debito := some "estimado" } }
    else comp
  let comp :=
    if comp.debitos.icms = none then
      let valorPISCOFINS := extrairValorNumericoOpt comp.debitos.pis +
        extrairValorNumericoOpt comp.debitos.cofins
      if 0 < valorPISCOFINS then
        { comp with
          debitos := { comp.debitos with
            icms := some ⟨valorPISCOFINS * 3.5, "estimado"⟩ }
          fontesDados := { comp.fontesDados with
            icms_debito := some "estimado" } }
      else comp
    else comp
  { parametros with composicaoTributaria := comp }

/-- C10: `calcularParametrosFiscais` returns normally for every pair of
inputs — the rest of its `try` block always throws the `ReferenceError`
on the undeclared `faturamentoMensal` and the `catch` returns the
partially built structure — and the returned
`composicaoTributaria.aliquotasEfetivas` is always the empty map. -/
theorem calcularParametrosFiscais_sempre_retorna
    (spedFiscal : Option SpedFiscal)
    (spedContribuicoes : Option SpedContribuicoes) :
    calcularParametrosFiscais spedFiscal spedContribuicoes =
      buildParametros spedFiscal spedContribuicoes ∧
    (calcularParametrosFiscais spedFiscal
      spedContribuicoes).composicaoTributaria.aliquotasEfetivas = [] ∧
    calcularParametrosFiscaisResto
      (buildParametros spedFiscal spedContribuicoes) =
      .error (.referenceError "faturamentoMensal") :=
  ⟨rfl, rfl, rfl⟩

/-- The structure built by `processarDadosTributarios`
(part_000 lines 327–333). -/
structure Tributarios : Type where
  debitosPis : ℚ
  debitosCofins : ℚ
  debitosIcms : ℚ
  debitosIpi : ℚ
  debitosIss : ℚ
  creditosPis : ℚ
  creditosCofins : ℚ
  creditosIcms : ℚ
  creditosIpi : ℚ
  creditosIss : ℚ
  aproveitamentoPIS : ℚ
  aproveitamentoCOFINS : ℚ
  aliquotaICMS : ℚ
deriving Repr, DecidableEq

/-- Embeds `processarDadosTributarios` (part_000 lines 324–386): walk the
raw federal-contribution lines, assign the PIS debit from `M100` field 3
and the COFINS debit from `M500` field 3, accumulate credits from
`M105`/`M505` field 5; when no `M500` appeared and PIS is positive,
derive COFINS as PIS × (7.6 / 1.65); finally compute the credit
utilisation percentages. -/
def processarDadosTributarios (contribuicoes : Option (List String)) :
    Tributarios :=
  let init : Tributarios := ⟨0, 0, 0, 0, 0, 0, 0, 0, 0, 0, 100, 100, 18⟩
  match contribuicoes with
  | none => init
  | some linhas =>
    let t := linhas.foldl
      (fun t linha =>
        let campos := linha.splitOn "|"
        match campos.get? 1 with
        | some "M100" => { t with debitosPis := valorCampoNum (campos.get? 3) }
        | some "M500" =>
          { t with debitosCofins := valorCampoNum (campos.get? 3) }
        | some "M105" =>
          { t with creditosPis := t.creditosPis + valorCampoNum (campos.get? 5) }
        | some "M505" =>
          { t with creditosCofins :=
              t.creditosCofins + valorCampoNum (campos.get? 5) }
        | _ => t) init
    let t :=
      if t.debitosCofins = 0 ∧ 0 < t.debitosPis then
        { t with debitosCofins := t.debitosPis * (7.6 / 1.65) }
      else t
    let t :=
      if 0 < t.debitosPis then
        let ap := min (t.creditosPis / t.debitosPis * 100) 100
        { t with aproveitamentoPIS := ap }
      else t
    let t :=
      if 0 < t.debitosCofins then
        let ap := min (t.creditosCofins / t.debitosCofins * 100) 100
        { t with aproveitamentoCOFINS := ap }
      else t
    t

/-- The claim's scenario dataset: a gross-revenue declaration of 100 000
and one PIS debit-ledger record of 1 650, no COFINS record. -/
def cenarioContribuicoes : SpedContribuicoes :=
  { debitos := some ⟨some [⟨.num 1650, .undef⟩], none⟩
    creditos := none
    receitas := some ⟨100000⟩ }

/-- C1: on the claimed scenario the resolver never produces the 1.65%
PIS effective rate and never derives COFINS.  `calcularParametrosFiscais`
records the PIS debit 1 650 with source `"sped"`, then its `try` tail
throws on the undeclared `faturamentoMensal` and the `catch` returns the
partial structure: `aliquotasEfetivas` stays empty and the COFINS debit
stays absent, because `estimarValoresAusentes` (line 3005) is
unreachable.  Had it run, it would tag the derived COFINS
1650 × 7.6/1.65 = 7600 with `"estimado"` — not a `derived` marker.  The
raw-line path `processarDadosTributarios` does derive 7600 from an `M100`
line but carries no provenance and no effective rate at all. -/
theorem calcularParametrosFiscais_cenario :
    (calcularParametrosFiscais none
      (some cenarioContribuicoes)).composicaoTributaria.debitos.pis =
      some ⟨1650, "sped"⟩ ∧
    (calcularParametrosFiscais none
      (some cenarioContribuicoes)).composicaoTributaria.debitos.cofins =
      none ∧
    (calcularParametrosFiscais none
      (some cenarioContribuicoes)).composicaoTributaria.aliquotasEfetivas =
      [] ∧
    (estimarValoresAusentes (calcularParametrosFiscais none
      (some cenarioContribuicoes))).composicaoTributaria.debitos.cofins =
      some ⟨7600, "estimado"⟩ ∧
    (processarDadosTributarios (some ["|M100|x|1650"])).debitosPis = 1650 ∧
    (processarDadosTributarios (some ["|M100|x|1650"])).debitosCofins =
      7600 := by
  refine ⟨by with_unfolding_all rfl, rfl, rfl, by with_unfolding_all rfl,
    by with_unfolding_all rfl, by with_unfolding_all rfl⟩

/-! ## The cross-file combiner (`combinarResultados`,
src/js/importador/importador/importacao-controller.js lines 382–615) -/

/-- A participant as the relational pass reads it. -/
structure ParticipanteC : Type where
  codigo : Option String
deriving Repr, DecidableEq

/-- A line item as the relational pass reads it. -/
structure ItemC : Type where
  documentoId : Option String
deriving Repr, DecidableEq

/-- A fiscal document as the combiner and its passes read it. -/
structure DocumentoC : Type where
  indOper : Option String
  situacao : Option String
  dataEmissao : Option String
  valorTotal : Option ℚ
  codPart : Option String
  id : Option String
  participante : Option ParticipanteC
  itens : Option (List ItemC)
deriving Repr, DecidableEq

/-- A balance-sheet account as `calcularValoresAgregados` reads it. -/
structure ContaBalanco : Type where
  codigoConta : String
  descricaoConta : String
  naturezaSaldo : String
  saldoFinal : ℚ
deriving Repr, DecidableEq

/-- A per-file aggregated structure as `combinarResultados` consumes it.
Collections whose elements the combiner never inspects are carried as
opaque payload strings; `empresa` is its field assoc list (JS object,
insertion-ordered, unique keys); the map-of-list categories are assoc
lists category ↦ records; `valores` holds the scalar numeric facts of
the object root (the `valorProps` names); `metadados` is opaque. -/
structure Resultado : Type where
  empresa : List (String × String)
  documentos : List DocumentoC
  itens : List ItemC
  itensAnaliticos : List String
  impostos : List (String × List String)
  creditos : List (String × List String)
  debitos : List (String × List String)
  regimes : List (String × List (String × String))
  ajustes : List (String × List String)
  receitasNaoTributadas : List (String × List String)
  balancoPatrimonial : List ContaBalanco
  demonstracaoResultado : List String
  lancamentosContabeis : List String
  partidasLancamento : List String
  calculoImposto : List (String × List (String × String))
  incentivosFiscais : List String
  participantes : List ParticipanteC
  inventario : List String
  discriminacaoReceita : List String
  metadados : Option String
  valores : List (String × ℚ)
deriving Repr, DecidableEq

/-- The combined structure (lines 384–407); its `metadados` is the
`arquivosProcessados` list. -/
structure Combinado : Type where
  empresa : List (String × String)
  documentos : List DocumentoC
  itens : List ItemC
  itensAnaliticos : List String
  impostos : List (String × List String)
  creditos : List (String × List String)
  debitos : List (String × List String)
  regimes : List (String × List (String × String))
  ajustes : List (String × List String)
  receitasNaoTributadas : List (String × List String)
  balancoPatrimonial : List ContaBalanco
  demonstracaoResultado : List String
  lancamentosContabeis : List String
  partidasLancamento : List String
  calculoImposto : List (String × List (String × String))
  incentivosFiscais : List String
  participantes : List ParticipanteC
  inventario : List String
  discriminacaoReceita : List String
  arquivosProcessados : List String
  valores : List (String × ℚ)
deriving Repr, DecidableEq

/-- Appends records under a category key, creating the key at the end if
absent (lines 446–457; JS object keys are unique and insertion-ordered). -/
def mesclaCategoria {α : Type} (comb : List (String × List α))
    (categoria : String) (vals : List α) : List (String × List α) :=
  if (comb.lookup categoria).isSome then
    comb.map (fun p => if p.1 = categoria then (p.1, p.2 ++ vals) else p)
  else comb ++ [(categoria, vals)]

/-- Merges a map-of-list category of one input (lines 446–457). -/
def mesclaCategorias {α : Type} (comb res : List (String × List α)) :
    List (String × List α) :=
  res.foldl (fun comb p => mesclaCategoria comb p.1 p.2) comb

/-- Merges an object-valued category (`regimes`, `calculoImposto`,
lines 462–475): keep the entry with more keys. -/
def mesclaObjetos (comb res : List (String × List (String × String))) :
    List (String × List (String × String)) :=
  res.foldl
    (fun comb p =>
      match comb.lookup p.1 with
      | none => comb ++ [p]
      | some atual =>
        if atual.length < p.2.length then
          comb.map (fun q => if q.1 = p.1 then p else q)
        else comb) comb

/-- The scalar numeric facts copied at lines 478–489. -/
def valorProps : List String :=
  ["receitaBruta", "receitaLiquida", "lucroBruto", "resultadoOperacional",
   "lucroLiquido", "saldoClientes", "saldoEstoques", "saldoFornecedores",
   "ativoCirculante", "passivoCirculante", "capitalGiro",
   "aliquotaEfetivaIRPJ", "aliquotaEfetivaCSLL", "percentualExportacao",
   "valorTotalIncentivos"]

/-- Writes a scalar slot (assignment on the JS object root). -/
def escreveValor (l : List (String × ℚ)) (prop : String) (v : ℚ) :
    List (String × ℚ) :=
  if (l.lookup prop).isSome then
    l.map (fun p => if p.1 = prop then (p.1, v) else p)
  else l ++ [(prop, v)]

/-- One input folded into the combined structure (lines 410–490). -/
def combinaUm (comb : Combinado) (resultado : Resultado) : Combinado :=
  let comb :=
    match resultado.metadados with
    | some m => { comb with arquivosProcessados := comb.arquivosProcessados ++ [m] }
    | none => comb
  let comb :=
    if resultado.empresa ≠ [] then
      let nomeAtual := (resultado.empresa.lookup "nome").getD ""
      let nomeExistente := (comb.empresa.lookup "nome").getD ""
      if nomeAtual ≠ "" ∧ (nomeExistente = "" ∨
          comb.empresa.length < resultado.empresa.length) then
        { comb with empresa := resultado.empresa }
      else comb
    else comb
  let comb :=
    { comb with
      documentos := comb.documentos ++ resultado.documentos
      itens := comb.itens ++ resultado.itens
      itensAnaliticos := comb.itensAnaliticos ++ resultado.itensAnaliticos
      balancoPatrimonial := comb.balancoPatrimonial ++ resultado.balancoPatrimonial
      demonstracaoResultado :=
        comb.demonstracaoResultado ++ resultado.demonstracaoResultado
      lancamentosContabeis :=
        comb.lancamentosContabeis ++ resultado.lancamentosContabeis
      partidasLancamento := comb.partidasLancamento ++ resultado.partidasLancamento
      incentivosFiscais := comb.incentivosFiscais ++ resultado.incentivosFiscais
      participantes := comb.participantes ++ resultado.participantes
      inventario := comb.inventario ++ resultado.inventario
      discriminacaoReceita :=
        comb.discriminacaoReceita ++ resultado.discriminacaoReceita }
  let comb :=
    { comb with
      impostos := mesclaCategorias comb.impostos resultado.impostos
      creditos := mesclaCategorias comb.creditos resultado.creditos
      receitasNaoTributadas :=
        mesclaCategorias comb.receitasNaoTributadas resultado.receitasNaoTributadas
      ajustes := mesclaCategorias comb.ajustes resultado.ajustes }
  -- `objArrayProps` (line 444) lists impostos, creditos,
  -- receitasNaoTributadas and ajustes — NOT debitos: the `debitos`
  -- bucket initialised at line 391 is never merged.
  let comb :=
    { comb with
      regimes := mesclaObjetos comb.regimes resultado.regimes
      calculoImposto := mesclaObjetos comb.calculoImposto resultado.calculoImposto }
  valorProps.foldl
    (fun comb prop =>
      match resultado.valores.lookup prop with
      | some v =>
        match comb.valores.lookup prop with
        | none => { comb with valores := escreveValor comb.valores prop v }
        | some cv =>
          if cv = 0 then { comb with valores := escreveValor comb.valores prop v }
          else comb
      | none => comb) comb

/-- `dataEmissao.replace(/(\d{2})(\d{2})(\d{4})/, '$3-$2')` for the
`ddmmyyyy` dates the aggregator stores: `yyyy-mm` plus any trailing rest
(a non-matching string is returned unchanged). -/
def formataMes (d : String) : String :=
  match d.toList with
  | d1 :: d2 :: m1 :: m2 :: a1 :: a2 :: a3 :: a4 :: resto =>
    if [d1, d2, m1, m2, a1, a2, a3, a4].all (·.isDigit) then
      ⟨[a1, a2, a3, a4, '-', m1, m2] ++ resto⟩
    else d
  | _ => d

/-- The month grouping of lines 559–586 (only `receitaPorMes` feeds the
result; the period bounds computed there are unused). -/
def somaPorMes (docs : List DocumentoC) : List (String × ℚ) :=
  docs.foldl
    (fun acc doc =>
      match doc.dataEmissao with
      | none => acc
      | some d =>
        if d = "" then acc
        else
          let chave := formataMes d
          let v := doc.valorTotal.getD 0
          if (acc.lookup chave).isSome then
            acc.map (fun p => if p.1 = chave then (p.1, p.2 + v) else p)
          else acc ++ [(chave, v)]) []

/-- Embeds `calcularValoresAgregados` (lines 548–615). -/
def calcularValoresAgregados (dados : Combinado) : Combinado :=
  let dados :=
    if (dados.valores.lookup "receitaBruta").getD 0 = 0 ∧
        0 < dados.documentos.length then
      let documentosSaida := dados.documentos.filter
        (fun doc => doc.indOper = some "1" ∧ doc.situacao = some "00")
      if 0 < documentosSaida.length then
        let receitaPorMes := somaPorMes documentosSaida
        if 0 < receitaPorMes.length then
          let totalReceita := (receitaPorMes.map (·.2)).sum
          let receita := totalReceita * 12 / receitaPorMes.length
          { dados with valores := escreveValor dados.valores "receitaBruta" receita }
        else dados
      else dados
    else dados
  let dados :=
    if (dados.valores.lookup "saldoClientes").getD 0 = 0 ∧
        0 < dados.balancoPatrimonial.length then
      let contasClientes := dados.balancoPatrimonial.filter
        (fun conta =>
          (conta.codigoConta.startsWith "1.1.2" ∨
            temSub conta.descricaoConta.toLower "client") ∧
          conta.naturezaSaldo = "D")
      if 0 < contasClientes.length then
        let saldo := (contasClientes.map (·.saldoFinal)).sum
        { dados with valores := escreveValor dados.valores "saldoClientes" saldo }
      else dados
    else dados
  if (dados.valores.lookup "resultadoOperacional").getD 0 = 0 ∧
      (dados.valores.lookup "lucroBruto").getD 0 ≠ 0 then
    let ro := (dados.valores.lookup "lucroBruto").getD 0 * 0.7
    { dados with valores := escreveValor dados.valores "resultadoOperacional" ro }
  else dados

/-- Embeds `processarRelacoesCruzadas` (lines 502–542): attach
participants to documents and items to their documents, then run the
aggregate pass. -/
def processarRelacoesCruzadas (dados : Combinado) : Combinado :=
  let dados :=
    if 0 < dados.documentos.length ∧ 0 < dados.participantes.length then
      let tabela := dados.participantes.foldl
        (fun (acc : List (String × ParticipanteC)) participante =>
          match participante.codigo with
          | some c =>
            if c ≠ "" then
              (acc.filter (fun p => p.1 ≠ c)) ++ [(c, participante)]
            else acc
          | none => acc) []
      { dados with
        documentos := dados.documentos.map
          (fun doc =>
            match doc.codPart with
            | some cp =>
              if cp ≠ "" then
                match tabela.lookup cp with
                | some part => { doc with participante := some part }
                | none => doc
              else doc
            | none => doc) }
    else dados
  let dados :=
    if 0 < dados.documentos.length ∧ 0 < dados.itens.length then
      let porDocumento := dados.itens.foldl
        (fun (acc : List (String × List ItemC)) item =>
          match item.documentoId with
          | some did =>
            if did ≠ "" then mesclaCategoria acc did [item] else acc
          | none => acc) []
      { dados with
        documentos := dados.documentos.map
          (fun doc =>
            match doc.id with
            | some i =>
              if i ≠ "" then
                match porDocumento.lookup i with
                | some its => { doc with itens := some its }
                | none => doc
              else doc
            | none => doc) }
    else dados
  calcularValoresAgregados dados

/-- The fresh combined structure of lines 384–407. -/
def combinadoVazio : Combinado :=
  ⟨[], [], [], [], [], [], [], [], [], [], [], [], [], [], [], [], [], [],
    [], [], []⟩

/-- Embeds `combinarResultados` (lines 382–496): fold the per-file
results into the fresh structure, then the relational pass. -/
def combinarResultados (resultados : List Resultado) : Combinado :=
  processarRelacoesCruzadas (resultados.foldl combinaUm combinadoVazio)

/-- The empty per-file dataset. -/
def resultadoVazio : Resultado :=
  ⟨[], [], [], [], [], [], [], [], [], [], [], [], [], [], [], [], [], [],
    [], none, []⟩

/-- A per-file dataset holding one PIS debit record and one PIS credit
record. -/
def resultadoComDebitos : Resultado :=
  { resultadoVazio with
    debitos := [("pis", ["registroM210"])]
    creditos := [("pis", ["registroM105"])] }

/-- C4: the combiner drops every debit record.  Combining the dataset `A`
(one PIS debit record, one PIS credit record) with the empty dataset
carries the credit category over by concatenation — but the `debitos` map
of the result is empty, not `A`'s, because `objArrayProps` (line 444)
omits `'debitos'`; so the combined result is not `A` and the claimed
carry-over of the debit category fails. -/
theorem combinarResultados_perde_debitos :
    (combinarResultados [resultadoComDebitos, resultadoVazio]).debitos = [] ∧
    resultadoComDebitos.debitos = [("pis", ["registroM210"])] ∧
    (combinarResultados [resultadoComDebitos, resultadoVazio]).creditos =
      [("pis", ["registroM105"])] ∧
    (combinarResultados [resultadoComDebitos, resultadoVazio]).debitos ≠
      resultadoComDebitos.debitos := by
  refine ⟨by with_unfolding_all rfl, rfl, by with_unfolding_all rfl, ?_⟩
  intro h
  rw [show (combinarResultados [resultadoComDebitos, resultadoVazio]).debitos
    = [] from by with_unfolding_all rfl] at h
  simp [resultadoComDebitos] at h

end SpedSim
